import Mathlib

/-!
Verification development for the `kijiji_repost_headless` core
(`kijiji_repost_headless/kijiji_api.py`): a shallow embedding of the single
source file, together with theorems about its operations.

Modelling conventions, following the spec's component boundary (section 6 of
the design document):

* The HTML/markup parser (BeautifulSoup) is an external collaborator consumed
  as a capability.  HTML responses are therefore modelled post-parse as a
  `Doc`: the raw response body string together with the flat list of elements
  in document order, each with its attribute list and (for scripts) its
  `.string` content (`none` when the tag has no single string child, exactly
  as `Tag.string` can be `None`).
* `json.loads` is modelled by an executable recursive-descent parser
  `jsonParse` over the fragment the program exchanges (objects, arrays,
  strings with simple escapes, integers, booleans, null).  Duplicate object
  keys keep the first key position with the last value, as Python dicts do.
* The `requests` session is modelled by a transport oracle `Transport`
  (response for the n-th request of the session) plus a state `St` recording
  the request counter and the trace of issued requests.  Each operation is
  state-passing; Python exceptions become `Except PyError`.  State (and thus
  the trace of already-issued requests) is returned even on the error path,
  as the real requests have already been sent.
* `yaml.load` (used only by `get_xsrf_token`) is likewise a collaborator and
  is passed in as a function parameter.
* Python regular-expression searches are modelled per pattern, with Python
  semantics (leftmost match, greedy `.*` and `\S+`, lazy `.+?`, `.` not
  matching a newline).
-/

set_option maxHeartbeats 1000000
set_option maxRecDepth 4096

/-- Python exceptions that `kijiji_api.py` can raise: the custom
`KijijiApiException(msg, dump)` (whose `dump` argument, when present, is the
response body written to a timestamped dump file), and the built-in untyped
runtime errors that can escape from it. -/
inductive PyError where
  | kijiji (msg : String) (dump : Option String)
  | valueError
  | keyError
  | typeError
  | attributeError
  | httpError
  deriving DecidableEq

/-- JSON values (the fragment exchanged by the program; numbers are modelled
as integers, which covers every value the code manipulates). -/
inductive Json where
  | null
  | bool (b : Bool)
  | num (n : Int)
  | str (s : String)
  | arr (elems : List Json)
  | obj (fields : List (String × Json))

/-- Python `x is None` on a JSON value (the upload routine filters `None`
entries out of its result list). -/
def jsonIsNull : Json → Bool
  | Json.null => true
  | _ => false

/-- First-occurrence lookup in an association list (Python `dict` lookup; the
lists produced by `jsonParse` have distinct keys). -/
def alistGet {α : Type} : List (String × α) → String → Option α
  | [], _ => none
  | (k, v) :: rest, key => if k = key then some v else alistGet rest key

/-- Python `d[key] = v`: replace the value at the first occurrence of the key
(keeping its position), or append the binding when the key is absent. -/
def alistSet {α : Type} : List (String × α) → String → α → List (String × α)
  | [], key, v => [(key, v)]
  | (k, w) :: rest, key, v =>
    if k = key then (k, v) :: rest else (k, w) :: alistSet rest key v

/-- Python `d[key]` on a JSON value: `KeyError` when the key is absent,
`TypeError` when the value is not an object (string subscripts on non-dicts
raise `TypeError` in Python). -/
def jsonGetItem : Json → String → Except PyError Json
  | Json.obj kvs, k =>
    match alistGet kvs k with
    | some v => Except.ok v
    | none => Except.error PyError.keyError
  | _, _ => Except.error PyError.typeError

/-- Python truthiness of a JSON value (`if ads_info:`). -/
def jsonTruthy : Json → Bool
  | Json.null => false
  | Json.bool b => b
  | Json.num n => n != 0
  | Json.str s => s != ""
  | Json.arr xs => !xs.isEmpty
  | Json.obj kvs => !kvs.isEmpty

/-- Python `str()` of a JSON scalar, as used by `'...{}...'.format(ad_id)`.
Container reprs are abbreviated (the program only ever formats scalar ids). -/
def pyStr : Json → String
  | Json.str s => s
  | Json.num n => toString n
  | Json.bool true => "True"
  | Json.bool false => "False"
  | Json.null => "None"
  | Json.arr _ => "[...]"
  | Json.obj _ => "\x7b...\x7d"

/-- Does the first list occur as a prefix of the second? -/
def startsWithList : List Char → List Char → Bool
  | [], _ => true
  | _ :: _, [] => false
  | a :: as, b :: bs => a == b && startsWithList as bs

/-- Does the first list occur as a contiguous sublist of the second? -/
def subListAt : List Char → List Char → Bool
  | needle, [] => needle.isEmpty
  | needle, hay@(_ :: t) => startsWithList needle hay || subListAt needle t

/-- Python `needle in hay` on strings. -/
def strContains (hay needle : String) : Bool := subListAt needle.data hay.data

/-- Python `str.isspace` characters relevant to `\S` and `str.strip`. -/
def isPySpace (c : Char) : Bool :=
  c == ' ' || c == '\t' || c == '\n' || c == '\r' || c == '\x0b' || c == '\x0c'

/-- Python `str.strip()`. -/
def pyStrip (s : String) : String :=
  String.mk (((s.data.dropWhile isPySpace).reverse.dropWhile isPySpace).reverse)

/-- Python `str.replace` on character lists: replace each non-overlapping
occurrence of `pat` by `rep`, left to right (the program only uses non-empty
patterns).  The fuel argument, instantiated with the input length, makes the
recursion structural: every step consumes at least one character. -/
def replaceListFuel (pat rep : List Char) : Nat → List Char → List Char
  | 0, s => s
  | _, [] => []
  | fuel + 1, c :: rest =>
    if pat.isEmpty then c :: rest
    else if startsWithList pat (c :: rest) then
      rep ++ replaceListFuel pat rep fuel ((c :: rest).drop pat.length)
    else c :: replaceListFuel pat rep fuel rest

/-- Python `s.replace(pat, rep)`. -/
def strReplace (s pat rep : String) : String :=
  String.mk (replaceListFuel pat.data rep.data s.data.length s.data)

/-- JSON insignificant whitespace. -/
def isJsonWs (c : Char) : Bool := c == ' ' || c == '\t' || c == '\n' || c == '\r'

def skipWs (cs : List Char) : List Char := cs.dropWhile isJsonWs

/-- Body of a JSON string after the opening quote; handles the simple escapes
the program's payloads use. -/
def parseStringBody : Nat → List Char → Option (String × List Char)
  | 0, _ => none
  | _, [] => none
  | fuel + 1, c :: rest =>
    if c = '"' then some ("", rest)
    else if c = '\\' then
      match rest with
      | [] => none
      | e :: rest2 =>
        let ec : Option Char :=
          if e = '"' then some '"'
          else if e = '\\' then some '\\'
          else if e = '/' then some '/'
          else if e = 'n' then some '\n'
          else if e = 't' then some '\t'
          else if e = 'r' then some '\r'
          else none
        match ec with
        | some d =>
          (parseStringBody fuel rest2).map (fun p => (String.mk (d :: p.1.data), p.2))
        | none => none
    else (parseStringBody fuel rest).map (fun p => (String.mk (c :: p.1.data), p.2))

def digitsToNat (ds : List Char) : Nat :=
  ds.foldl (fun acc c => acc * 10 + (c.toNat - 48)) 0

/-- JSON integer literal (the program's data never carries floats). -/
def parseNum : List Char → Option (Int × List Char)
  | '-' :: rest =>
    let ds := rest.takeWhile Char.isDigit
    if ds.isEmpty then none
    else some (-(digitsToNat ds : Int), rest.drop ds.length)
  | cs =>
    let ds := cs.takeWhile Char.isDigit
    if ds.isEmpty then none
    else some ((digitsToNat ds : Int), cs.drop ds.length)

mutual

def parseVal : Nat → List Char → Option (Json × List Char)
  | 0, _ => none
  | fuel + 1, cs0 =>
    let cs := skipWs cs0
    match cs with
    | [] => none
    | c :: rest =>
      if c = '"' then
        (parseStringBody (rest.length + 1) rest).map (fun p => (Json.str p.1, p.2))
      else if c = '\x7b' then parseObjTail fuel rest
      else if c = '[' then parseArrTail fuel rest
      else if startsWithList "true".data cs then some (Json.bool true, cs.drop 4)
      else if startsWithList "false".data cs then some (Json.bool false, cs.drop 5)
      else if startsWithList "null".data cs then some (Json.null, cs.drop 4)
      else (parseNum cs).map (fun p => (Json.num p.1, p.2))

def parseObjTail : Nat → List Char → Option (Json × List Char)
  | 0, _ => none
  | fuel + 1, cs =>
    match skipWs cs with
    | '\x7d' :: rest => some (Json.obj [], rest)
    | other =>
      (parseMembers fuel other).map
        (fun p => (Json.obj (p.1.foldl (fun d kv => alistSet d kv.1 kv.2) []), p.2))

def parseMembers : Nat → List Char → Option (List (String × Json) × List Char)
  | 0, _ => none
  | fuel + 1, cs =>
    match skipWs cs with
    | '"' :: rest =>
      match parseStringBody (rest.length + 1) rest with
      | none => none
      | some (key, rest1) =>
        match skipWs rest1 with
        | ':' :: rest2 =>
          match parseVal fuel rest2 with
          | none => none
          | some (v, rest3) =>
            match skipWs rest3 with
            | ',' :: rest4 =>
              (parseMembers fuel rest4).map (fun p => ((key, v) :: p.1, p.2))
            | '\x7d' :: rest4 => some ([(key, v)], rest4)
            | _ => none
        | _ => none
    | _ => none

def parseArrTail : Nat → List Char → Option (Json × List Char)
  | 0, _ => none
  | fuel + 1, cs =>
    match skipWs cs with
    | ']' :: rest => some (Json.arr [], rest)
    | other => (parseElems fuel other).map (fun p => (Json.arr p.1, p.2))

def parseElems : Nat → List Char → Option (List Json × List Char)
  | 0, _ => none
  | fuel + 1, cs =>
    match parseVal fuel cs with
    | none => none
    | some (v, rest) =>
      match skipWs rest with
      | ',' :: rest1 => (parseElems fuel rest1).map (fun p => (v :: p.1, p.2))
      | ']' :: rest1 => some ([v], rest1)
      | _ => none

end

/-- Model of `json.loads` over the fragment the program exchanges: the whole
input (up to trailing whitespace) must be consumed, otherwise a `ValueError`
(`none`) results. -/
def jsonParse (s : String) : Option Json :=
  match parseVal (s.length + 1) s.data with
  | some (v, rest) => if (skipWs rest).isEmpty then some v else none
  | none => none

/-!
## Regular-expression models

One model per pattern in the source, each with Python `re.search` semantics:
the match starts at the leftmost feasible position; `.*` and `\S+` are greedy;
`.+?` is lazy; `.` does not match a newline.
-/

/-- Match a pattern prefix consisting of literal characters (`some c`) and
the regex `.` wildcard (`none`, any character except a newline); on success
return the rest of the input. -/
def matchWild : List (Option Char) → List Char → Option (List Char)
  | [], cs => some cs
  | _ :: _, [] => none
  | p :: ps, c :: cs =>
    match p with
    | some pc => if pc = c then matchWild ps cs else none
    | none => if c = '\n' then none else matchWild ps cs

def litPat (s : String) : List (Option Char) := s.data.map some

/-- The pattern `window.__data=` of `get_kj_data`; the `.` after `window` is
an (unescaped) regex wildcard. -/
def wdataPat : List (Option Char) :=
  litPat "window" ++ [none] ++ litPat "__data="

def takeLine (cs : List Char) : List Char := cs.takeWhile (fun c => c != '\n')

/-- Characters of a line up to (excluding) its last `;`. -/
def upToLastSemi (line : List Char) : List Char :=
  ((line.reverse.dropWhile (fun c => c != ';')).drop 1).reverse

/-- `re.search('window.__data=(.*);', s)`: at the leftmost position where the
prefix matches and a `;` follows on the same line, the greedy `(.*)` captures
everything up to the last `;` of that line. -/
def searchWData : List Char → Option (List Char)
  | [] => none
  | c :: rest =>
    match matchWild wdataPat (c :: rest) with
    | some after =>
      if (takeLine after).contains ';' then some (upToLastSemi (takeLine after))
      else searchWData rest
    | none => searchWData rest

/-- Characters of a run up to (excluding) its last `'`, provided at least one
character precedes that quote (backtracking target of a greedy `\S+` that
must be followed by `'`). -/
def upToLastQuote (run : List Char) : Option (List Char) :=
  match run.reverse.dropWhile (fun c => c != '\x27') with
  | [] => none
  | _ :: rest => if rest.isEmpty then none else some rest.reverse

/-- `re.search(r"initialXsrfToken: '(\S+)'", s)` of `post_ad_using_data`:
after the literal prefix, the greedy `(\S+)` captures the maximal non-space
run up to the last `'` inside it. -/
def searchInitXsrf : List Char → Option (List Char)
  | [] => none
  | c :: rest =>
    match matchWild (litPat ("initialXsrfToken: " ++ "\x27")) (c :: rest) with
    | some after =>
      match upToLastQuote (after.takeWhile (fun ch => !(isPySpace ch))) with
      | some cap => some cap
      | none => searchInitXsrf rest
    | none => searchInitXsrf rest

/-- `re.search('kjrva=(\d+)', s)` of `post_ad_using_data`: at the leftmost
occurrence of the literal followed by at least one digit, capture the maximal
digit run. -/
def searchKjrva : List Char → Option (List Char)
  | [] => none
  | c :: rest =>
    match matchWild (litPat "kjrva=") (c :: rest) with
    | some after =>
      let ds := after.takeWhile Char.isDigit
      if ds.isEmpty then searchKjrva rest else some ds
    | none => searchKjrva rest

/-- Does `);` occur later on the current line (the trailing `.*\);` of the
`Zoop.init` pattern)? -/
def restParenSemiOk (cs : List Char) : Bool := subListAt [')', ';'] (takeLine cs)

/-- Lazy `.+?` scan of `get_xsrf_token`'s capture `({.+?})`: accumulate at
least one character until a `}` whose continuation still admits `.*\);`. -/
def zoopInner (acc : List Char) : List Char → Option (List Char)
  | [] => none
  | c :: rest =>
    if c == '\n' then none
    else if c == '\x7d' && !acc.isEmpty && restParenSemiOk rest then some acc.reverse
    else zoopInner (c :: acc) rest

/-- All captures of `config: ({.+?}).*\);` at each feasible position of the
current line, in order. -/
def zoopConfigCaps : List Char → List (List Char)
  | [] => []
  | c :: rest =>
    let here : List (List Char) :=
      match matchWild (litPat "config: ") (c :: rest) with
      | some after =>
        match after with
        | '\x7b' :: inner =>
          match zoopInner [] inner with
          | some cap => ['\x7b' :: (cap ++ ['\x7d'])]
          | none => []
        | _ => []
      | none => []
    here ++ zoopConfigCaps rest

/-- `re.search('Zoop\.init\(.*config: ({.+?}).*\);', s)` of `get_xsrf_token`:
leftmost `Zoop.init(`, then the greedy `.*` makes the capture start at the
last feasible `config: ` of that line. -/
def zoopSearch : List Char → Option (List Char)
  | [] => none
  | c :: rest =>
    match matchWild (litPat "Zoop.init(") (c :: rest) with
    | some after =>
      match (zoopConfigCaps (takeLine after)).getLast? with
      | some cap => some cap
      | none => zoopSearch rest
    | none => zoopSearch rest

/-!
## Parsed HTML documents and the token/data extractors

Per the spec the HTML parser is an external collaborator; a served page is
modelled as its parse: the raw body string plus the flat element list in
document order.
-/

/-- One parsed HTML element: tag name, attribute list, and - for script
elements - the `.string` content (`none` when the tag does not have a single
string child, as with `Tag.string` in the collaborator API). -/
structure Tag where
  tag : String
  attrs : List (String × String)
  scriptBody : Option String
  deriving DecidableEq

/-- A served HTML page: raw body text plus its parse. -/
structure Doc where
  raw : String
  tags : List Tag
  deriving DecidableEq

/-- Attribute lookup on an element. -/
def tagAttr (t : Tag) (k : String) : Option String := alistGet t.attrs k

/-- `get_token(html, attrib_name)`: value of the first element matching the
CSS selector `[name=<attrib_name>]`; raises `KijijiApiException` with the html
dumped when no element matches, and Python's `KeyError` when the matching
element lacks a `value` attribute. -/
def get_token (doc : Doc) (attrib : String) : Except PyError String :=
  match doc.tags.filter (fun t => tagAttr t "name" == some attrib) with
  | [] =>
    Except.error (PyError.kijiji
      ("Element with name attribute \x27" ++ attrib ++ "\x27 not found in html text.")
      (some doc.raw))
  | t :: _ =>
    match tagAttr t "value" with
    | some v => Except.ok v
    | none => Except.error PyError.keyError

/-- `soup.find_all("script", {"src": False})`: script elements without a
`src` attribute, in document order. -/
def inlineScripts (doc : Doc) : List Tag :=
  doc.tags.filter (fun t => t.tag == "script" && (tagAttr t "src").isNone)

/-- Loop body of `get_kj_data`: `re.search` on each script's `.string`
(`TypeError` when that is `None`), `json.loads` of the first capture
(`ValueError` when it is not valid JSON). -/
def kjDataGo (raw : String) : List Tag → Except PyError Json
  | [] =>
    Except.error (PyError.kijiji "\x27__data\x27 JSON object not found in html text." (some raw))
  | t :: rest =>
    match t.scriptBody with
    | none => Except.error PyError.typeError
    | some s =>
      match searchWData s.data with
      | some cap =>
        match jsonParse (String.mk cap) with
        | some j => Except.ok j
        | none => Except.error PyError.valueError
      | none => kjDataGo raw rest

/-- `get_kj_data(html)`: the `window.__data` JSON object from the first
matching inline script. -/
def get_kj_data (doc : Doc) : Except PyError Json :=
  kjDataGo doc.raw (inlineScripts doc)

/-- Loop body of `get_xsrf_token`: each script's `.string` is
newline-stripped (`AttributeError` when it is `None`), searched for the
`Zoop.init` config pattern, and the first capture is handed to the relaxed
parser (`yaml.load`, a collaborator passed as `yl`), whose `token` entry is
returned. -/
def xsrfGo (yl : String → Except PyError Json) (raw : String) : List Tag → Except PyError Json
  | [] => Except.error (PyError.kijiji "XSRF token not found in html text." (some raw))
  | t :: rest =>
    match t.scriptBody with
    | none => Except.error PyError.attributeError
    | some s =>
      match zoopSearch ((strReplace s "\n" "").data) with
      | some cap =>
        match yl (String.mk cap) with
        | Except.error e => Except.error e
        | Except.ok y => jsonGetItem y "token"
      | none => xsrfGo yl raw rest

/-- `get_xsrf_token(html)` (used by `delete_ad`, whose page lacks the hidden
form input). -/
def get_xsrf_token (yl : String → Except PyError Json) (doc : Doc) : Except PyError Json :=
  xsrfGo yl doc.raw (inlineScripts doc)

/-!
## The session client

`KijijiApi` holds a `requests.Session`; the session is modelled by a
transport oracle (the response to the n-th request issued on the session)
plus the request counter and request trace.
-/

/-- An HTTP request as issued through the session: method, URL, query
parameters (`params=`), form data (`data=`), extra headers, and - for image
uploads - the index of the posted binary file. -/
structure Request where
  post : Bool
  url : String
  qparams : List (String × Json)
  formData : List (String × Json)
  headers : List (String × String)
  fileArg : Option Nat

/-- A mock HTTP response: status code, body text, the collaborator's parse of
the body (for pages consumed as HTML), and response headers. -/
structure Resp where
  status : Nat
  text : String
  doc : Doc
  headers : List (String × String)

/-- The response the server gives to the n-th request of the session. -/
def Transport : Type := Nat → Resp

/-- Session state: how many requests have been issued, and the trace of the
requests themselves. -/
structure St where
  idx : Nat
  trace : List Request

/-- Issue one request: look up the transport's response and extend the
trace. -/
def stepReq (tr : Transport) (st : St) (req : Request) : Resp × St :=
  (tr st.idx, ⟨st.idx + 1, st.trace ++ [req]⟩)

def getReq (url : String) : Request := ⟨false, url, [], [], [], none⟩

def getReqP (url : String) (ps : List (String × Json)) : Request :=
  ⟨false, url, ps, [], [], none⟩

def postReq (url : String) (d : List (String × Json)) : Request :=
  ⟨true, url, [], d, [], none⟩

def postFileReq (url : String) (img : Nat) (hs : List (String × String)) : Request :=
  ⟨true, url, [], [], hs, some img⟩

/-- `resp.raise_for_status()` raises for 4xx and 5xx responses. -/
def statusBad (r : Resp) : Bool := 400 ≤ r.status && r.status < 600

/-- ASCII lowercasing, for the case-insensitive header lookup. -/
def asciiLower (s : String) : String := String.mk (s.data.map Char.toLower)

/-- `requests` response headers are case-insensitive. -/
def headerGet (hs : List (String × String)) (k : String) : Option String :=
  match hs.filter (fun kv => asciiLower kv.1 == asciiLower k) with
  | [] => none
  | kv :: _ => some kv.2

def loginUrl : String := "https://www.kijiji.ca/t-login.html"
def myAdsSlashUrl : String := "https://www.kijiji.ca/m-my-ads.html/"
def myAdsUrl : String := "https://www.kijiji.ca/m-my-ads.html"
def logoutUrl : String := "https://www.kijiji.ca/m-logout.html"
def deleteJsonUrl : String := "https://www.kijiji.ca/j-delete-ad.json"
def imageUploadUrl : String := "https://www.kijiji.ca/p-upload-image.html"
def postAdPageUrl : String := "https://www.kijiji.ca/p-admarkt-post-ad.html?categoryId=15"
def submitAdUrl : String := "https://www.kijiji.ca/p-submit-ad.html"
def adsJsonUrl : String := "https://www.kijiji.ca/my/ads.json"
def ranksUrl : String := "https://www.kijiji.ca/my/ranks"

/-- `is_logged_in()`: a stateless probe - GET the ads page and test the body
for the "Sign Out" marker. -/
def is_logged_in (tr : Transport) (st : St) : Bool × St :=
  let p := stepReq tr st (getReq myAdsSlashUrl)
  (strContains p.1.text "Sign Out", p.2)

/-- `login(username, password)`: GET the login page, scrape the hidden xsrf
token and the `targetUrl` of the embedded JSON config, POST the credentials
with both, and re-verify via `is_logged_in`; on failed verification raise
`KijijiApiException` dumping the POST response body. -/
def login (tr : Transport) (username password : String) (st : St) :
    Except PyError Unit × St :=
  let p0 := stepReq tr st (getReq loginUrl)
  match get_token p0.1.doc "ca.kijiji.xsrf.token" with
  | Except.error e => (Except.error e, p0.2)
  | Except.ok tok =>
    match get_kj_data p0.1.doc with
    | Except.error e => (Except.error e, p0.2)
    | Except.ok d =>
      match jsonGetItem d "config" with
      | Except.error e => (Except.error e, p0.2)
      | Except.ok cfg =>
        match jsonGetItem cfg "targetUrl" with
        | Except.error e => (Except.error e, p0.2)
        | Except.ok tUrl =>
          let payload : List (String × Json) :=
            [("emailOrNickname", Json.str username),
             ("password", Json.str password),
             ("rememberMe", Json.str "true"),
             ("_rememberMe", Json.str "on"),
             ("ca.kijiji.xsrf.token", Json.str tok),
             ("targetUrl", tUrl)]
          let p1 := stepReq tr p0.2 (postReq loginUrl payload)
          let p2 := is_logged_in tr p1.2
          if p2.1 then (Except.ok (), p2.2)
          else (Except.error (PyError.kijiji "Could not log in." (some p1.1.text)), p2.2)

/-- `logout()`: best-effort GET of the logout endpoint. -/
def logout (tr : Transport) (st : St) : St :=
  (stepReq tr st (getReq logoutUrl)).2

/-- The `ads` form field of `delete_ad`'s POST, with the ad id formatted
in. -/
def deleteAdsField (ad_id : Json) : String :=
  "[\x7b\"adId\":\"" ++ pyStr ad_id ++ "\",\"reason\":\"PREFER_NOT_TO_SAY\",\"otherReason\":\"\"\x7d]"

/-- The form data of `delete_ad`'s POST. -/
def deleteParams (ad_id : Json) (tok : Json) : List (String × Json) :=
  [("Action", Json.str "DELETE_ADS"),
   ("Mode", Json.str "ACTIVE"),
   ("needsRedirect", Json.str "false"),
   ("ads", Json.str (deleteAdsField ad_id)),
   ("ca.kijiji.xsrf.token", tok)]

/-- `delete_ad(ad_id)`: GET the ads management page for a fresh xsrf token
(via the inline-config extractor), POST the delete action, and raise unless
the response body carries an "OK" marker. -/
def delete_ad (yl : String → Except PyError Json) (tr : Transport) (ad_id : Json) (st : St) :
    Except PyError Unit × St :=
  let p0 := stepReq tr st (getReq myAdsUrl)
  match get_xsrf_token yl p0.1.doc with
  | Except.error e => (Except.error e, p0.2)
  | Except.ok tok =>
    let p1 := stepReq tr p0.2 (postReq deleteJsonUrl (deleteParams ad_id tok))
    if !(strContains p1.1.text "OK") then
      (Except.error (PyError.kijiji "Could not delete ad." (some p1.1.text)), p1.2)
    else (Except.ok (), p1.2)

/-- The comprehension of `delete_ad_using_title`: for each ad record whose
stripped `title` equals the stripped given title, invoke `delete_ad` on its
`id`.  `ad['title']` can raise `KeyError` and `.strip()` on a non-string
value `AttributeError`, exactly as in Python. -/
def deleteMatching (yl : String → Except PyError Json) (tr : Transport) (title : String) :
    List Json → St → Except PyError Unit × St
  | [], st => (Except.ok (), st)
  | ad :: rest, st =>
    match jsonGetItem ad "title" with
    | Except.error e => (Except.error e, st)
    | Except.ok (Json.str t) =>
      if pyStrip t = pyStrip title then
        match jsonGetItem ad "id" with
        | Except.error e => (Except.error e, st)
        | Except.ok i =>
          match delete_ad yl tr i st with
          | (Except.error e, st2) => (Except.error e, st2)
          | (Except.ok _, st2) => deleteMatching yl tr title rest st2
      else deleteMatching yl tr title rest st
    | Except.ok _ => (Except.error PyError.attributeError, st)

/-- `upload_image` attempt body: `json.loads` of the response text
(`ValueError` on parse failure) and its `thumbnailUrl` entry (`KeyError` when
missing, `TypeError` when the parse is not an object). -/
def uploadTryParse (s : String) : Except PyError Json :=
  match jsonParse s with
  | none => Except.error PyError.valueError
  | some j => jsonGetItem j "thumbnailUrl"

/-- The multipart POST of one image-upload attempt. -/
def uploadPost (img : Nat) (token : String) : Request :=
  postFileReq imageUploadUrl img [("X-Ebay-Box-Token", token)]

/-- The `for i in range(0, 3)` attempt loop for one image (`fuel` counts the
attempts left): POST the image, raise for an HTTP error status, and on a
parse or missing-key failure retry; a successful attempt stops the loop with
the scraped URL, and exhausting the attempts yields nothing. -/
def uploadAttempts (tr : Transport) (token : String) (img : Nat) :
    Nat → St → Except PyError (Option Json) × St
  | 0, st => (Except.ok none, st)
  | fuel + 1, st =>
    let p := stepReq tr st (uploadPost img token)
    if statusBad p.1 then (Except.error PyError.httpError, p.2)
    else
      match uploadTryParse p.1.text with
      | Except.ok u => (Except.ok (some u), p.2)
      | Except.error PyError.keyError => uploadAttempts tr token img fuel p.2
      | Except.error PyError.valueError => uploadAttempts tr token img fuel p.2
      | Except.error e => (Except.error e, p.2)

/-- The outer `for img_file in image_files` loop, collecting the scraped URLs
in order. -/
def uploadAll (tr : Transport) (token : String) :
    List Nat → St → Except PyError (List Json) × St
  | [], st => (Except.ok [], st)
  | img :: rest, st =>
    match uploadAttempts tr token img 3 st with
    | (Except.error e, st2) => (Except.error e, st2)
    | (Except.ok u, st2) =>
      match uploadAll tr token rest st2 with
      | (Except.error e, st3) => (Except.error e, st3)
      | (Except.ok us, st3) =>
        (Except.ok ((match u with | some x => [x] | none => []) ++ us), st3)

/-- `upload_image(token, image_files)`: up to 3 attempts per image; the final
comprehension drops `None` entries. -/
def upload_image (tr : Transport) (token : String) (files : List Nat) (st : St) :
    Except PyError (List Json) × St :=
  match uploadAll tr token files st with
  | (Except.error e, st2) => (Except.error e, st2)
  | (Except.ok us, st2) => (Except.ok (us.filter (fun u => !jsonIsNull u)), st2)

/-- `",".join(image_list)`: `TypeError` when an element is not a string. -/
def pyJoinComma : List Json → Except PyError String
  | [] => Except.ok ""
  | [Json.str s] => Except.ok s
  | Json.str s :: rest =>
    match pyJoinComma rest with
    | Except.ok t => Except.ok (s ++ "," ++ t)
    | Except.error e => Except.error e
  | _ => Except.error PyError.typeError

/-- Caller-supplied ad data: a Python dict of string fields. -/
def PyDict : Type := List (String × String)

/-- `data.get("postAdForm.title", "")`. -/
def titleOf (d : PyDict) : String :=
  match alistGet d "postAdForm.title" with
  | some t => t
  | none => ""

/-- Tail of `post_ad_using_data` (source lines 185-206), from the title
validation on: check the title length bounds, POST the assembled payload,
raise for HTTP errors and absent success markers (distinguishing the ban
marker), and scrape the new ad id from the `kjrva=<digits>` pattern of the
`Set-Cookie` response header - an unguarded chain where a missing header is a
`KeyError` and a missing pattern an `AttributeError`. -/
def postAdFinish (tr : Transport) (data4 : PyDict) (st2 : St) :
    Except PyError String × PyDict × St :=
  if (titleOf data4).length < 10 then
    (Except.error (PyError.kijiji "Your ad title is too short! (min 10 chars)" none),
     data4, st2)
  else if 64 < (titleOf data4).length then
    (Except.error (PyError.kijiji "Your ad title is too long! (max 64 chars)" none),
     data4, st2)
  else
    let p1 := stepReq tr st2
      (postReq submitAdUrl (data4.map (fun kv => (kv.1, Json.str kv.2))))
    if statusBad p1.1 then (Except.error PyError.httpError, data4, p1.2)
    else if !(strContains p1.1.text "Delete Ad?") then
      if strContains p1.1.text
          "There was an issue posting your ad, please contact Customer Service." then
        (Except.error (PyError.kijiji "Could not post ad; this user is banned."
          (some p1.1.text)), data4, p1.2)
      else
        (Except.error (PyError.kijiji "Could not post ad." (some p1.1.text)),
         data4, p1.2)
    else
      match headerGet p1.1.headers "Set-Cookie" with
      | none => (Except.error PyError.keyError, data4, p1.2)
      | some sc =>
        match searchKjrva sc.data with
        | none => (Except.error PyError.attributeError, data4, p1.2)
        | some ds => (Except.ok (String.mk ds), data4, p1.2)

/-- `post_ad_using_data(data, image_files)`: GET the posting form page,
scrape `initialXsrfToken` (raising `KijijiApiException` with a dump when
absent), upload the images, then mutate the caller's `data` dict in place:
`images` (comma-joined URLs), the hidden xsrf token, the fraud token, and the
newline-normalised description; then validate and submit via `postAdFinish`.
The (possibly mutated) `data` dict is returned alongside the result,
modelling the in-place mutation visible to the caller. -/
def post_ad_using_data (tr : Transport) (data0 : PyDict) (files : List Nat) (st : St) :
    Except PyError String × PyDict × St :=
  let p0 := stepReq tr st (getReq postAdPageUrl)
  match searchInitXsrf p0.1.text.data with
  | none =>
    (Except.error (PyError.kijiji "\x27initialXsrfToken\x27 not found in html text."
      (some p0.1.text)), data0, p0.2)
  | some tokCs =>
    match upload_image tr (String.mk tokCs) files p0.2 with
    | (Except.error e, st2) => (Except.error e, data0, st2)
    | (Except.ok urls, st2) =>
      match pyJoinComma urls with
      | Except.error e => (Except.error e, data0, st2)
      | Except.ok joined =>
        let data1 := alistSet data0 "images" joined
        match get_token p0.1.doc "ca.kijiji.xsrf.token" with
        | Except.error e => (Except.error e, data1, st2)
        | Except.ok t1 =>
          let data2 := alistSet data1 "ca.kijiji.xsrf.token" t1
          match get_token p0.1.doc "postAdForm.fraudToken" with
          | Except.error e => (Except.error e, data2, st2)
          | Except.ok t2 =>
            let data3 := alistSet data2 "postAdForm.fraudToken" t2
            match alistGet data3 "postAdForm.description" with
            | none => (Except.error PyError.keyError, data3, st2)
            | some desc =>
              postAdFinish tr
                (alistSet data3 "postAdForm.description" (strReplace desc "\\n" "\n")) st2

/-- The `params` comprehension of `get_all_ads`: one repeated `ids` pair per
ad, in order (`KeyError`/`TypeError` from `ad['id']` propagate). -/
def collectIds : List Json → Except PyError (List (String × Json))
  | [] => Except.ok []
  | ad :: rest =>
    match jsonGetItem ad "id" with
    | Except.error e => Except.error e
    | Except.ok i =>
      match collectIds rest with
      | Except.error e => Except.error e
      | Except.ok ps => Except.ok (("ids", i) :: ps)

/-- The rank-merge loop of `get_all_ads`: `ads_info[ad_id]['rank'] = rank`
for each returned rank (`KeyError` when the id is unknown, `TypeError` when
the ad record is not a dict). -/
def mergeRanks : List (String × Json) → List (String × Json) → Except PyError (List (String × Json))
  | ads, [] => Except.ok ads
  | ads, (k, r) :: rest =>
    match alistGet ads k with
    | none => Except.error PyError.keyError
    | some (Json.obj av) => mergeRanks (alistSet ads k (Json.obj (alistSet av "rank" r))) rest
    | some _ => Except.error PyError.typeError

/-- `get_all_ads()`: GET the ads JSON, and when the ad map is truthy
(non-empty) GET the ranks endpoint with every ad id as a repeated `ids`
parameter and merge each rank into its ad record; return the record values. -/
def get_all_ads (tr : Transport) (st : St) : Except PyError (List Json) × St :=
  let p0 := stepReq tr st (getReq adsJsonUrl)
  if statusBad p0.1 then (Except.error PyError.httpError, p0.2)
  else
    match jsonParse p0.1.text with
    | none => (Except.error PyError.valueError, p0.2)
    | some adsJson =>
      match jsonGetItem adsJson "ads" with
      | Except.error e => (Except.error e, p0.2)
      | Except.ok adsInfo =>
        if jsonTruthy adsInfo then
          match adsInfo with
          | Json.obj kvs =>
            match collectIds (kvs.map Prod.snd) with
            | Except.error e => (Except.error e, p0.2)
            | Except.ok ps =>
              let p1 := stepReq tr p0.2 (getReqP ranksUrl ps)
              if statusBad p1.1 then (Except.error PyError.httpError, p1.2)
              else
                match jsonParse p1.1.text with
                | none => (Except.error PyError.valueError, p1.2)
                | some ranksJson =>
                  match jsonGetItem ranksJson "ranks" with
                  | Except.error e => (Except.error e, p1.2)
                  | Except.ok (Json.obj rkvs) =>
                    match mergeRanks kvs rkvs with
                    | Except.error e => (Except.error e, p1.2)
                    | Except.ok merged => (Except.ok (merged.map Prod.snd), p1.2)
                  | Except.ok _ => (Except.error PyError.attributeError, p1.2)
          | _ => (Except.error PyError.attributeError, p0.2)
        else
          match adsInfo with
          | Json.obj kvs => (Except.ok (kvs.map Prod.snd), p0.2)
          | _ => (Except.error PyError.attributeError, p0.2)

/-- `delete_ad_using_title(title)`: fetch all ads, then delete every ad whose
stripped title equals the stripped given title. -/
def delete_ad_using_title (yl : String → Except PyError Json) (tr : Transport)
    (title : String) (st : St) : Except PyError Unit × St :=
  match get_all_ads tr st with
  | (Except.error e, st1) => (Except.error e, st1)
  | (Except.ok allAds, st1) => deleteMatching yl tr title allAds st1

/-!
## Association-list lemmas
-/

theorem alistGet_set_self {α : Type} (l : List (String × α)) (k : String) (v : α) :
    alistGet (alistSet l k v) k = some v := by
  induction l with
  | nil => simp [alistGet, alistSet]
  | cons kv rest ih =>
    obtain ⟨k0, w⟩ := kv
    by_cases h : k0 = k
    · simp [alistSet, alistGet, h]
    · simp [alistSet, alistGet, h, ih]

theorem alistGet_set_ne {α : Type} (l : List (String × α)) (k k' : String) (v : α)
    (h : k' ≠ k) : alistGet (alistSet l k v) k' = alistGet l k' := by
  have h' : ¬(k = k') := fun hx => h hx.symm
  induction l with
  | nil => simp [alistGet, alistSet, h']
  | cons kv rest ih =>
    obtain ⟨k0, w⟩ := kv
    by_cases h0 : k0 = k
    · subst h0
      simp [alistSet, alistGet, h']
    · simp [alistSet, alistGet, h0, ih]

theorem alistSet_map_fst_of_mem {α : Type} (l : List (String × α)) (k : String) (v : α)
    (h : k ∈ l.map Prod.fst) : (alistSet l k v).map Prod.fst = l.map Prod.fst := by
  induction l with
  | nil => simp at h
  | cons kv rest ih =>
    obtain ⟨k0, w⟩ := kv
    rw [List.map_cons] at h
    rcases List.mem_cons.mp h with h | h
    · subst h
      simp [alistSet]
    · by_cases h0 : k0 = k
      · simp [alistSet, h0]
      · simp [alistSet, h0, ih h]

/-!
## C5 - the hidden-field extractor
-/

/-- C5: for every parsed HTML input containing an element whose `name`
attribute equals the requested name, `get_token` returns the `value`
attribute of the first such element (so when several exist the first wins);
and for every input lacking any element with that name attribute it raises
`KijijiApiException` carrying a dump of the offending HTML (from which the
timestamped dump file is written). -/
theorem get_token_spec :
    (∀ (raw : String) (pre post : List Tag) (e : Tag) (nm v : String),
      (∀ t ∈ pre, tagAttr t "name" ≠ some nm) →
      tagAttr e "name" = some nm →
      tagAttr e "value" = some v →
      get_token ⟨raw, pre ++ e :: post⟩ nm = Except.ok v)
    ∧ (∀ (doc : Doc) (nm : String),
      (∀ t ∈ doc.tags, tagAttr t "name" ≠ some nm) →
      get_token doc nm = Except.error (PyError.kijiji
        ("Element with name attribute \x27" ++ nm ++ "\x27 not found in html text.")
        (some doc.raw))) := by
  constructor
  · intro raw pre post e nm v hpre he hv
    have hfp : pre.filter (fun t => tagAttr t "name" == some nm) = [] := by
      rw [List.filter_eq_nil_iff]
      intro t ht
      simpa using hpre t ht
    simp [get_token, List.filter_append, hfp, List.filter_cons, he, hv]
  · intro doc nm hall
    have hf : doc.tags.filter (fun t => tagAttr t "name" == some nm) = [] := by
      rw [List.filter_eq_nil_iff]
      intro t ht
      simpa using hall t ht
    simp [get_token, hf]

/-- Witness for C5 at concrete inputs: an input element carrying the field,
and a page with no matching element. -/
theorem get_token_spec_witness :
    get_token ⟨"<page1>", [⟨"input", [("name", "fld"), ("value", "v0")], none⟩]⟩ "fld"
      = Except.ok "v0"
    ∧ get_token ⟨"<page2>", [⟨"div", [("id", "x")], none⟩]⟩ "fld"
      = Except.error (PyError.kijiji
          "Element with name attribute \x27fld\x27 not found in html text." (some "<page2>")) := by
  constructor
  · exact get_token_spec.1 "<page1>" [] [] ⟨"input", [("name", "fld"), ("value", "v0")], none⟩
      "fld" "v0" (by intro t ht; simp at ht) (by decide) (by decide)
  · exact get_token_spec.2 ⟨"<page2>", [⟨"div", [("id", "x")], none⟩]⟩ "fld"
      (by intro t ht; simp at ht; subst ht; decide)

/-!
## C6 - the embedded-JSON extractor
-/

theorem kjDataGo_skip (raw : String) (l l' : List Tag)
    (h : ∀ t ∈ l, ∃ s, t.scriptBody = some s ∧ searchWData s.data = none) :
    kjDataGo raw (l ++ l') = kjDataGo raw l' := by
  induction l with
  | nil => simp
  | cons t rest ih =>
    obtain ⟨s, hs, hn⟩ := h t (by simp)
    have := ih (fun t ht => h t (by simp [ht]))
    simp [kjDataGo, hs, hn, this]

/-- C6 falls on the code as stated: the HTML below contains
`window.__data={"a":1};` inside an inline script, yet `get_kj_data` raises an
(untyped) `ValueError` instead of returning `{"a": 1}`, because the greedy
`(.*)` capture extends to the last `;` of the line and the captured text
`{"a":1};f(1)` is not valid JSON. -/
theorem get_kj_data_literal_cex :
    strContains "window.__data=\x7b\"a\":1\x7d;f(1);" "window.__data=\x7b\"a\":1\x7d;" = true
    ∧ get_kj_data ⟨"<page>",
        [⟨"script", [], some "window.__data=\x7b\"a\":1\x7d;f(1);"⟩]⟩
      = Except.error PyError.valueError := by
  constructor
  · decide
  · rfl

/-- C6 (amended): for every parsed HTML input whose inline (src-less)
scripts before some script with body exactly `window.__data={"a":1};` have
string content not matching the `window.__data=<...>;` pattern, `get_kj_data`
returns the parsed object `{"a": 1}` (the claim as frozen fails when extra
text follows the assignment on the same line, since the greedy capture then
fails to parse); and for every input all of whose inline scripts have string
content with no match, it raises `KijijiApiException` carrying a dump of the
offending HTML. -/
theorem get_kj_data_spec :
    (∀ (raw : String) (pre post : List Tag),
      (∀ t ∈ pre, t.tag = "script" → tagAttr t "src" = none →
        ∃ s, t.scriptBody = some s ∧ searchWData s.data = none) →
      get_kj_data ⟨raw, pre ++ ⟨"script", [], some "window.__data=\x7b\"a\":1\x7d;"⟩ :: post⟩
        = Except.ok (Json.obj [("a", Json.num 1)]))
    ∧ (∀ (doc : Doc),
      (∀ t ∈ doc.tags, t.tag = "script" → tagAttr t "src" = none →
        ∃ s, t.scriptBody = some s ∧ searchWData s.data = none) →
      get_kj_data doc = Except.error (PyError.kijiji
        "\x27__data\x27 JSON object not found in html text." (some doc.raw))) := by
  constructor
  · intro raw pre post hpre
    unfold get_kj_data inlineScripts
    simp only [List.filter_append, List.filter_cons]
    have hskip : ∀ t ∈ pre.filter (fun t => t.tag == "script" && (tagAttr t "src").isNone),
        ∃ s, t.scriptBody = some s ∧ searchWData s.data = none := by
      intro t ht
      have hmem := List.mem_filter.mp ht
      have hp := hmem.2
      simp only [Bool.and_eq_true, beq_iff_eq, Option.isNone_iff_eq_none] at hp
      exact hpre t hmem.1 hp.1 hp.2
    rw [show ((⟨"script", [], some "window.__data=\x7b\"a\":1\x7d;"⟩ : Tag).tag == "script"
        && (tagAttr ⟨"script", [], some "window.__data=\x7b\"a\":1\x7d;"⟩ "src").isNone) = true
      from by decide]
    simp only [if_true]
    rw [kjDataGo_skip _ _ _ hskip]
    rfl
  · intro doc hall
    unfold get_kj_data
    have hskip : ∀ t ∈ inlineScripts doc,
        ∃ s, t.scriptBody = some s ∧ searchWData s.data = none := by
      intro t ht
      have hmem := List.mem_filter.mp ht
      have hp := hmem.2
      simp only [Bool.and_eq_true, beq_iff_eq, Option.isNone_iff_eq_none] at hp
      exact hall t hmem.1 hp.1 hp.2
    have := kjDataGo_skip doc.raw (inlineScripts doc) [] hskip
    rw [List.append_nil] at this
    rw [this]
    rfl

/-!
## C1 - the image-upload retry loop
-/

theorem jsonIsNull_false_ne (u : Json) (h : jsonIsNull u = false) : u ≠ Json.null := by
  intro he
  subst he
  simp [jsonIsNull] at h

/-- Whatever the outcome, the attempt loop for one image only issues upload
POSTs for that image, at most `n` of them, advancing the counter in step. -/
theorem uploadAttempts_trace (tr : Transport) (token : String) (img : Nat) (n : Nat) :
    ∀ st : St, ∃ m, m ≤ n ∧
      (uploadAttempts tr token img n st).2 =
        ⟨st.idx + m, st.trace ++ List.replicate m (uploadPost img token)⟩ := by
  induction n with
  | zero =>
    intro st
    exact ⟨0, le_rfl, by simp [uploadAttempts]⟩
  | succ k ih =>
    intro st
    by_cases hb : statusBad (tr st.idx)
    · exact ⟨1, by omega, by simp [uploadAttempts, stepReq, hb]⟩
    · cases hout : uploadTryParse (tr st.idx).text with
      | ok u => exact ⟨1, by omega, by simp [uploadAttempts, stepReq, hb, hout]⟩
      | error e =>
        cases e with
        | valueError =>
          obtain ⟨m, hm, hst⟩ := ih ⟨st.idx + 1, st.trace ++ [uploadPost img token]⟩
          refine ⟨m + 1, by omega, ?_⟩
          simp only [uploadAttempts, stepReq, hb, hout, Bool.false_eq_true, if_false]
          rw [hst]
          simp [List.replicate_succ, List.append_assoc]
          omega
        | keyError =>
          obtain ⟨m, hm, hst⟩ := ih ⟨st.idx + 1, st.trace ++ [uploadPost img token]⟩
          refine ⟨m + 1, by omega, ?_⟩
          simp only [uploadAttempts, stepReq, hb, hout, Bool.false_eq_true, if_false]
          rw [hst]
          simp [List.replicate_succ, List.append_assoc]
          omega
        | kijiji msg dump => exact ⟨1, by omega, by simp [uploadAttempts, stepReq, hb, hout]⟩
        | typeError => exact ⟨1, by omega, by simp [uploadAttempts, stepReq, hb, hout]⟩
        | attributeError => exact ⟨1, by omega, by simp [uploadAttempts, stepReq, hb, hout]⟩
        | httpError => exact ⟨1, by omega, by simp [uploadAttempts, stepReq, hb, hout]⟩

/-- Whatever the outcome, `upload_image` only issues upload POSTs, at most 3
per image. -/
theorem upload_image_trace (tr : Transport) (token : String) (files : List Nat) :
    ∀ st : St, ∃ ext : List Request,
      (upload_image tr token files st).2 = ⟨st.idx + ext.length, st.trace ++ ext⟩ ∧
      ext.length ≤ 3 * files.length ∧
      ∀ q ∈ ext, q.post = true ∧ q.url = imageUploadUrl := by
  have key : ∀ (fs : List Nat) (st : St), ∃ ext : List Request,
      (uploadAll tr token fs st).2 = ⟨st.idx + ext.length, st.trace ++ ext⟩ ∧
      ext.length ≤ 3 * fs.length ∧
      ∀ q ∈ ext, q.post = true ∧ q.url = imageUploadUrl := by
    intro fs
    induction fs with
    | nil => intro st; exact ⟨[], by simp [uploadAll], by simp, by simp⟩
    | cons img rest ih =>
      intro st
      obtain ⟨m, hm, hst⟩ := uploadAttempts_trace tr token img 3 st
      have hrep : ∀ q ∈ List.replicate m (uploadPost img token),
          q.post = true ∧ q.url = imageUploadUrl := by
        intro q hq
        rw [List.eq_of_mem_replicate hq]
        exact ⟨rfl, rfl⟩
      cases hres : uploadAttempts tr token img 3 st with
      | mk res st2 =>
        have hst2 : st2 = ⟨st.idx + m, st.trace ++ List.replicate m (uploadPost img token)⟩ := by
          rw [hres] at hst; exact hst
        cases res with
        | error e =>
          refine ⟨List.replicate m (uploadPost img token), ?_, ?_, hrep⟩
          · simp [uploadAll, hres, hst2]
          · simp; omega
        | ok u =>
          obtain ⟨ext2, hext2, hlen2, hmem2⟩ := ih st2
          cases hres2 : uploadAll tr token rest st2 with
          | mk res2 st3 =>
            have hst3 : st3 = ⟨st2.idx + ext2.length, st2.trace ++ ext2⟩ := by
              rw [hres2] at hext2; exact hext2
            have hcomb : st3 = ⟨st.idx + (List.replicate m (uploadPost img token) ++ ext2).length,
                st.trace ++ (List.replicate m (uploadPost img token) ++ ext2)⟩ := by
              rw [hst3, hst2]
              simp [List.append_assoc]
              omega
            have hmemc : ∀ q ∈ List.replicate m (uploadPost img token) ++ ext2,
                q.post = true ∧ q.url = imageUploadUrl := by
              intro q hq
              rcases List.mem_append.mp hq with h | h
              · exact hrep q h
              · exact hmem2 q h
            have hlenc : (List.replicate m (uploadPost img token) ++ ext2).length
                ≤ 3 * (img :: rest).length := by
              simp at hlen2 ⊢
              omega
            cases res2 with
            | error e => exact ⟨_, by simp [uploadAll, hres, hres2, hcomb], hlenc, hmemc⟩
            | ok us => exact ⟨_, by simp [uploadAll, hres, hres2, hcomb], hlenc, hmemc⟩
  intro st
  obtain ⟨ext, hst, hlen, hmem⟩ := key files st
  cases hres : uploadAll tr token files st with
  | mk res st2 =>
    have : st2 = ⟨st.idx + ext.length, st.trace ++ ext⟩ := by rw [hres] at hst; exact hst
    cases res with
    | error e => exact ⟨ext, by simp [upload_image, hres, this], hlen, hmem⟩
    | ok us => exact ⟨ext, by simp [upload_image, hres, this], hlen, hmem⟩

/-- Under responses that are HTTP-ok and JSON-parse to an object or fail to
parse (the failure modes the attempt loop catches), the attempt loop never
raises. -/
theorem uploadAttempts_total (tr : Transport) (token : String) (img : Nat)
    (Hok : ∀ k, statusBad (tr k) = false)
    (Hshape : ∀ k, jsonParse (tr k).text = none ∨
      ∃ kvs, jsonParse (tr k).text = some (Json.obj kvs)) (n : Nat) :
    ∀ st : St, ∃ u st2, uploadAttempts tr token img n st = (Except.ok u, st2) := by
  induction n with
  | zero => intro st; exact ⟨none, st, by simp [uploadAttempts]⟩
  | succ k ih =>
    intro st
    have hb := Hok st.idx
    rcases Hshape st.idx with hp | ⟨kvs, hp⟩
    · obtain ⟨u, st2, hrec⟩ := ih ⟨st.idx + 1, st.trace ++ [uploadPost img token]⟩
      exact ⟨u, st2, by simp [uploadAttempts, stepReq, hb, uploadTryParse, hp, hrec]⟩
    · cases hl : alistGet kvs "thumbnailUrl" with
      | some v =>
        refine ⟨some v, ⟨st.idx + 1, st.trace ++ [uploadPost img token]⟩, ?_⟩
        simp [uploadAttempts, stepReq, hb, uploadTryParse, hp, jsonGetItem, hl]
      | none =>
        obtain ⟨u, st2, hrec⟩ := ih ⟨st.idx + 1, st.trace ++ [uploadPost img token]⟩
        exact ⟨u, st2,
          by simp [uploadAttempts, stepReq, hb, uploadTryParse, hp, jsonGetItem, hl, hrec]⟩

/-- Under the same response shapes, `upload_image` returns normally. -/
theorem upload_image_total (tr : Transport) (token : String)
    (Hok : ∀ k, statusBad (tr k) = false)
    (Hshape : ∀ k, jsonParse (tr k).text = none ∨
      ∃ kvs, jsonParse (tr k).text = some (Json.obj kvs)) :
    ∀ (files : List Nat) (st : St), ∃ urls st2,
      upload_image tr token files st = (Except.ok urls, st2) := by
  have key : ∀ (fs : List Nat) (st : St), ∃ us st2,
      uploadAll tr token fs st = (Except.ok us, st2) := by
    intro fs
    induction fs with
    | nil => intro st; exact ⟨[], st, by simp [uploadAll]⟩
    | cons img rest ih =>
      intro st
      obtain ⟨u, st2, h1⟩ := uploadAttempts_total tr token img Hok Hshape 3 st
      obtain ⟨us, st3, h2⟩ := ih st2
      cases u with
      | some x => exact ⟨[x] ++ us, st3, by simp [uploadAll, h1, h2]⟩
      | none => exact ⟨[] ++ us, st3, by simp [uploadAll, h1, h2]⟩
  intro files st
  obtain ⟨us, st2, h⟩ := key files st
  exact ⟨us.filter (fun u => !jsonIsNull u), st2, by simp [upload_image, h]⟩

/-- The attempt loop consumes all its fuel and yields no URL when every
attempt fails with a parse or missing-key error. -/
theorem uploadAttempts_all_fail (tr : Transport) (token : String) (img : Nat) (n : Nat) :
    ∀ st : St,
      (∀ j < n, statusBad (tr (st.idx + j)) = false ∧
        (uploadTryParse (tr (st.idx + j)).text = Except.error PyError.valueError ∨
         uploadTryParse (tr (st.idx + j)).text = Except.error PyError.keyError)) →
      uploadAttempts tr token img n st =
        (Except.ok none, ⟨st.idx + n, st.trace ++ List.replicate n (uploadPost img token)⟩) := by
  induction n with
  | zero => intro st _; simp [uploadAttempts]
  | succ k ih =>
    intro st H
    obtain ⟨hb, hout⟩ := H 0 (by omega)
    rw [Nat.add_zero] at hb hout
    have hrec := ih ⟨st.idx + 1, st.trace ++ [uploadPost img token]⟩ (by
      intro j hj
      have := H (j + 1) (by omega)
      simpa [Nat.add_assoc, Nat.add_comm 1 j] using this)
    rcases hout with hout | hout
    all_goals
      simp only [uploadAttempts, stepReq, hb, Bool.false_eq_true, if_false, hout]
      rw [hrec]
      simp [List.replicate_succ, List.append_assoc]
      omega

/-- A first successful attempt (after `a` failed ones) stops the loop with
the scraped URL after exactly `a + 1` POSTs. -/
theorem uploadAttempts_first_success (tr : Transport) (token : String) (img : Nat) :
    ∀ (a n : Nat) (st : St) (u : Json), a < n →
      (∀ j < a, statusBad (tr (st.idx + j)) = false ∧
        (uploadTryParse (tr (st.idx + j)).text = Except.error PyError.valueError ∨
         uploadTryParse (tr (st.idx + j)).text = Except.error PyError.keyError)) →
      statusBad (tr (st.idx + a)) = false →
      uploadTryParse (tr (st.idx + a)).text = Except.ok u →
      uploadAttempts tr token img n st =
        (Except.ok (some u),
         ⟨st.idx + (a + 1), st.trace ++ List.replicate (a + 1) (uploadPost img token)⟩) := by
  intro a
  induction a with
  | zero =>
    intro n st u hn _ hb hout
    cases n with
    | zero => omega
    | succ k =>
      rw [Nat.add_zero] at hb hout
      simp [uploadAttempts, stepReq, hb, hout]
  | succ a0 ih =>
    intro n st u hn H hb hout
    cases n with
    | zero => omega
    | succ k =>
      obtain ⟨hb0, hout0⟩ := H 0 (by omega)
      rw [Nat.add_zero] at hb0 hout0
      have hrec := ih k ⟨st.idx + 1, st.trace ++ [uploadPost img token]⟩ u (by omega)
        (by
          intro j hj
          have := H (j + 1) (by omega)
          simpa [Nat.add_assoc, Nat.add_comm 1 j] using this)
        (by simpa [Nat.add_assoc, Nat.add_comm 1 a0] using hb)
        (by simpa [Nat.add_assoc, Nat.add_comm 1 a0] using hout)
      rcases hout0 with hout0 | hout0
      all_goals
        simp only [uploadAttempts, stepReq, hb0, Bool.false_eq_true, if_false, hout0]
        rw [hrec]
        simp [List.replicate_succ, List.append_assoc]
        omega

/-- The final comprehension of `upload_image` leaves no `None` entry in the
returned URL list. -/
theorem upload_image_no_null (tr : Transport) (token : String) (files : List Nat)
    (st : St) (urls : List Json) (st2 : St)
    (h : upload_image tr token files st = (Except.ok urls, st2)) :
    ∀ u ∈ urls, u ≠ Json.null := by
  cases hall : uploadAll tr token files st with
  | mk res st3 =>
    cases res with
    | error e => simp [upload_image, hall] at h
    | ok us =>
      simp only [upload_image, hall, Prod.mk.injEq, Except.ok.injEq] at h
      intro u hu
      rw [← h.1] at hu
      have hf := List.mem_filter.mp hu
      exact jsonIsNull_false_ne u (by simpa using hf.2)

/-- C1: for every list of images, each image is attempted at most 3 times;
a successful attempt (response JSON parses to an object containing
`thumbnailUrl`) yields that image's URL and stops retrying it; an image whose
3 attempts all fail with a JSON-parse or missing-key error contributes no
URL; and under those failure modes the call never raises, returning the
collected URL list (with no `None` entries) from the remaining images. -/
theorem upload_image_retry_spec :
    (∀ (tr : Transport) (token : String) (files : List Nat) (st : St),
      (∀ k, statusBad (tr k) = false) →
      (∀ k, jsonParse (tr k).text = none ∨
        ∃ kvs, jsonParse (tr k).text = some (Json.obj kvs)) →
      ∃ urls st2, upload_image tr token files st = (Except.ok urls, st2) ∧
        (∀ u ∈ urls, u ≠ Json.null) ∧
        ∃ ext, st2 = ⟨st.idx + ext.length, st.trace ++ ext⟩ ∧
          ext.length ≤ 3 * files.length ∧
          ∀ q ∈ ext, q.post = true ∧ q.url = imageUploadUrl)
    ∧ (∀ (tr : Transport) (token : String) (img : Nat) (st : St),
      (∀ j < 3, statusBad (tr (st.idx + j)) = false ∧
        (uploadTryParse (tr (st.idx + j)).text = Except.error PyError.valueError ∨
         uploadTryParse (tr (st.idx + j)).text = Except.error PyError.keyError)) →
      uploadAttempts tr token img 3 st =
        (Except.ok none, ⟨st.idx + 3, st.trace ++ List.replicate 3 (uploadPost img token)⟩))
    ∧ (∀ (tr : Transport) (token : String) (img : Nat) (st : St) (a : Nat) (u : Json),
      a < 3 →
      (∀ j < a, statusBad (tr (st.idx + j)) = false ∧
        (uploadTryParse (tr (st.idx + j)).text = Except.error PyError.valueError ∨
         uploadTryParse (tr (st.idx + j)).text = Except.error PyError.keyError)) →
      statusBad (tr (st.idx + a)) = false →
      uploadTryParse (tr (st.idx + a)).text = Except.ok u →
      uploadAttempts tr token img 3 st =
        (Except.ok (some u),
         ⟨st.idx + (a + 1), st.trace ++ List.replicate (a + 1) (uploadPost img token)⟩)) := by
  refine ⟨?_, ?_, ?_⟩
  · intro tr token files st Hok Hshape
    obtain ⟨urls, st2, h⟩ := upload_image_total tr token Hok Hshape files st
    obtain ⟨ext, hext, hlen, hmem⟩ := upload_image_trace tr token files st
    rw [h] at hext
    exact ⟨urls, st2, h, upload_image_no_null tr token files st urls st2 h,
      ext, hext, hlen, hmem⟩
  · intro tr token img st H
    exact uploadAttempts_all_fail tr token img 3 st H
  · intro tr token img st a u ha H hb hout
    exact uploadAttempts_first_success tr token img a 3 st u ha H hb hout

/-- A response whose body is not JSON (attempt fails with `ValueError`). -/
def upFailResp : Resp := ⟨200, "notjson", ⟨"", []⟩, []⟩

/-- A response whose body carries a `thumbnailUrl`. -/
def upOkResp : Resp := ⟨200, "\x7b\"thumbnailUrl\":\"u1\"\x7d", ⟨"", []⟩, []⟩

/-- A transport that fails JSON parsing twice, then succeeds. -/
def upTrTwoFails : Transport := fun k => if k < 2 then upFailResp else upOkResp

/-- A transport that always fails JSON parsing. -/
def upTrAllFail : Transport := fun _ => upFailResp

/-- Witness for C1 at concrete inputs: an always-failing transport still
returns normally with an empty URL list, 3 failures yield no URL for the
image, and 2 failures followed by a success yield the URL on the 3rd
attempt. -/
theorem upload_image_retry_spec_witness :
    (∃ urls st2, upload_image upTrAllFail "tok" [5] ⟨0, []⟩ = (Except.ok urls, st2) ∧
      (∀ u ∈ urls, u ≠ Json.null) ∧
      ∃ ext, st2 = ⟨0 + ext.length, [] ++ ext⟩ ∧ ext.length ≤ 3 * [5].length ∧
        ∀ q ∈ ext, q.post = true ∧ q.url = imageUploadUrl)
    ∧ uploadAttempts upTrAllFail "tok" 5 3 ⟨0, []⟩ =
        (Except.ok none, ⟨0 + 3, [] ++ List.replicate 3 (uploadPost 5 "tok")⟩)
    ∧ uploadAttempts upTrTwoFails "tok" 5 3 ⟨0, []⟩ =
        (Except.ok (some (Json.str "u1")),
         ⟨0 + (2 + 1), [] ++ List.replicate (2 + 1) (uploadPost 5 "tok")⟩) := by
  refine ⟨?_, ?_, ?_⟩
  · exact upload_image_retry_spec.1 upTrAllFail "tok" [5] ⟨0, []⟩
      (fun k => rfl) (fun k => Or.inl rfl)
  · exact upload_image_retry_spec.2.1 upTrAllFail "tok" 5 ⟨0, []⟩
      (by
        intro j hj
        interval_cases j <;> exact ⟨rfl, Or.inl rfl⟩)
  · exact upload_image_retry_spec.2.2 upTrTwoFails "tok" 5 ⟨0, []⟩ 2 (Json.str "u1")
      (by omega)
      (by
        intro j hj
        interval_cases j <;> exact ⟨rfl, Or.inl rfl⟩)
      rfl rfl

/-!
## C2 - listing ads and merging ranks
-/

theorem alistGet_some_mem_keys {α : Type} (l : List (String × α)) (k : String) (v : α)
    (h : alistGet l k = some v) : k ∈ l.map Prod.fst := by
  induction l with
  | nil => simp [alistGet] at h
  | cons kv rest ih =>
    obtain ⟨k0, w⟩ := kv
    by_cases h0 : k0 = k
    · simp [h0]
    · rw [alistGet, if_neg h0] at h
      simp [ih h]

theorem collectIds_of_forall₂ (ads : List (String × Json)) (ids : List Json)
    (h : List.Forall₂ (fun kv i => jsonGetItem kv.2 "id" = Except.ok i) ads ids) :
    collectIds (ads.map Prod.snd) = Except.ok (ids.map (fun i => ("ids", i))) := by
  induction h with
  | nil => simp [collectIds]
  | cons hrel hrest ih => simp [collectIds, hrel, ih]

/-- Extensional description of the rank merge used to state C2: an ad record
receives the rank for its id under key `"rank"` exactly when the ranks map
carries that id. -/
def rankMerged (rks : List (String × Json)) (kv : String × Json) : String × Json :=
  match alistGet rks kv.1 with
  | some r =>
    (kv.1, match kv.2 with
      | Json.obj av => Json.obj (alistSet av "rank" r)
      | v => v)
  | none => kv

theorem map_rankMerged_set (k : String) (r : Json) (rest : List (String × Json))
    (hkrest : k ∉ rest.map Prod.fst) :
    ∀ (ads av : List (String × Json)),
      (ads.map Prod.fst).Nodup →
      alistGet ads k = some (Json.obj av) →
      (alistSet ads k (Json.obj (alistSet av "rank" r))).map (rankMerged rest)
        = ads.map (rankMerged ((k, r) :: rest)) := by
  intro ads
  induction ads with
  | nil => intro av _ hk; simp [alistGet] at hk
  | cons kv ads0 ih =>
    intro av hna hk
    obtain ⟨k0, v0⟩ := kv
    rw [List.map_cons, List.nodup_cons] at hna
    by_cases h0 : k0 = k
    · subst h0
      rw [alistGet, if_pos rfl] at hk
      have hv0 : v0 = Json.obj av := by injection hk
      subst hv0
      have hkget : alistGet rest k0 = none := by
        cases hg : alistGet rest k0 with
        | none => rfl
        | some w => exact absurd (alistGet_some_mem_keys rest k0 w hg) hkrest
      have htail : ∀ kv ∈ ads0, rankMerged ((k0, r) :: rest) kv = rankMerged rest kv := by
        intro kv hkv
        have hne : ¬(k0 = kv.1) := by
          intro he
          apply hna.1
          show k0 ∈ List.map Prod.fst ads0
          rw [he]
          exact List.mem_map_of_mem Prod.fst hkv
        simp [rankMerged, alistGet, hne]
      rw [alistSet, if_pos rfl]
      simp only [List.map_cons]
      rw [List.map_congr_left htail]
      have hhead : rankMerged rest (k0, Json.obj (alistSet av "rank" r))
          = rankMerged ((k0, r) :: rest) (k0, Json.obj av) := by
        simp [rankMerged, hkget, alistGet]
      rw [hhead]
    · rw [alistGet, if_neg h0] at hk
      rw [alistSet, if_neg h0]
      simp only [List.map_cons]
      rw [ih av hna.2 hk]
      have hne2 : ¬(k = k0) := fun h => h0 h.symm
      have hhead : rankMerged rest (k0, v0) = rankMerged ((k, r) :: rest) (k0, v0) := by
        simp [rankMerged, alistGet, hne2]
      rw [hhead]

theorem mergeRanks_eq :
    ∀ (rks ads : List (String × Json)),
      (rks.map Prod.fst).Nodup →
      (ads.map Prod.fst).Nodup →
      (∀ p ∈ rks, ∃ av, alistGet ads p.1 = some (Json.obj av)) →
      mergeRanks ads rks = Except.ok (ads.map (rankMerged rks)) := by
  intro rks
  induction rks with
  | nil =>
    intro ads _ _ _
    have : ∀ kv ∈ ads, rankMerged [] kv = kv := by
      intro kv _
      simp [rankMerged, alistGet]
    rw [List.map_congr_left this]
    simp [mergeRanks]
  | cons p rest ih =>
    intro ads hnr hna hmem
    obtain ⟨k, r⟩ := p
    rw [List.map_cons, List.nodup_cons] at hnr
    obtain ⟨av, hk0⟩ := hmem (k, r) (by simp)
    have hk : alistGet ads k = some (Json.obj av) := hk0
    have hmem' : ∀ q ∈ rest, ∃ av', alistGet (alistSet ads k (Json.obj (alistSet av "rank" r))) q.1
        = some (Json.obj av') := by
      intro q hq
      have hne : q.1 ≠ k := by
        intro he
        apply hnr.1
        show k ∈ List.map Prod.fst rest
        rw [← he]
        exact List.mem_map_of_mem Prod.fst hq
      rw [alistGet_set_ne ads k q.1 _ hne]
      exact hmem q (by simp [hq])
    have hna' : ((alistSet ads k (Json.obj (alistSet av "rank" r))).map Prod.fst).Nodup := by
      rw [alistSet_map_fst_of_mem ads k _ (alistGet_some_mem_keys ads k _ hk)]
      exact hna
    have hrec := ih _ hnr.2 hna' hmem'
    simp only [mergeRanks, hk]
    rw [hrec, map_rankMerged_set k r rest hnr.1 ads av hna hk]

/-- C2: `get_all_ads` on an empty ad map returns an empty list and issues no
ranks request (the trace carries only the ads GET); on a non-empty ad map it
issues exactly one ranks request carrying every ad id as a repeated `ids`
parameter, merges each returned rank into the corresponding ad record under
`"rank"`, and returns the ad records. -/
theorem get_all_ads_spec :
    (∀ (tr : Transport) (st : St) (adsJson : Json),
      statusBad (tr st.idx) = false →
      jsonParse (tr st.idx).text = some adsJson →
      jsonGetItem adsJson "ads" = Except.ok (Json.obj []) →
      get_all_ads tr st = (Except.ok [], ⟨st.idx + 1, st.trace ++ [getReq adsJsonUrl]⟩))
    ∧ (∀ (tr : Transport) (st : St) (adsJson ranksJson : Json)
        (ads rks : List (String × Json)) (ids : List Json),
      statusBad (tr st.idx) = false →
      jsonParse (tr st.idx).text = some adsJson →
      jsonGetItem adsJson "ads" = Except.ok (Json.obj ads) →
      ads ≠ [] →
      List.Forall₂ (fun kv i => jsonGetItem kv.2 "id" = Except.ok i) ads ids →
      statusBad (tr (st.idx + 1)) = false →
      jsonParse (tr (st.idx + 1)).text = some ranksJson →
      jsonGetItem ranksJson "ranks" = Except.ok (Json.obj rks) →
      (ads.map Prod.fst).Nodup →
      (rks.map Prod.fst).Nodup →
      (∀ p ∈ rks, ∃ av, alistGet ads p.1 = some (Json.obj av)) →
      get_all_ads tr st =
        (Except.ok ((ads.map (rankMerged rks)).map Prod.snd),
         ⟨st.idx + 2, st.trace ++ [getReq adsJsonUrl,
            getReqP ranksUrl (ids.map (fun i => ("ids", i)))]⟩)) := by
  constructor
  · intro tr st adsJson hb hparse hads
    simp [get_all_ads, stepReq, hb, hparse, hads, jsonTruthy]
  · intro tr st adsJson ranksJson ads rks ids hb hparse hads hne hids hb2 hparse2 hranks hna hnr hmem
    have htruthy : jsonTruthy (Json.obj ads) = true := by
      simp [jsonTruthy, hne]
    have hcoll := collectIds_of_forall₂ ads ids hids
    have hmerge := mergeRanks_eq rks ads hnr hna hmem
    simp [get_all_ads, stepReq, hb, hparse, hads, htruthy, hcoll, hb2, hparse2, hranks, hmerge]

/-- Ads endpoint response with an empty ad map. -/
def adsEmptyResp : Resp := ⟨200, "\x7b\"ads\":\x7b\x7d\x7d", ⟨"", []⟩, []⟩

/-- Ads endpoint response with two ads. -/
def adsTwoResp : Resp :=
  ⟨200, "\x7b\"ads\":\x7b\"1\":\x7b\"id\":\"1\"\x7d,\"2\":\x7b\"id\":\"2\"\x7d\x7d\x7d",
   ⟨"", []⟩, []⟩

/-- Ranks endpoint response for the two ads. -/
def ranksTwoResp : Resp := ⟨200, "\x7b\"ranks\":\x7b\"1\":3,\"2\":4\x7d\x7d", ⟨"", []⟩, []⟩

def adsTrEmpty : Transport := fun _ => adsEmptyResp

def adsTrTwo : Transport := fun k => if k = 0 then adsTwoResp else ranksTwoResp

/-- Witness for C2 at concrete inputs: zero ads short-circuit the ranks
request; two ads produce one ranks request with both ids and rank-merged
records. -/
theorem get_all_ads_spec_witness :
    get_all_ads adsTrEmpty ⟨0, []⟩ = (Except.ok [], ⟨0 + 1, [] ++ [getReq adsJsonUrl]⟩)
    ∧ get_all_ads adsTrTwo ⟨0, []⟩ =
        (Except.ok [Json.obj [("id", Json.str "1"), ("rank", Json.num 3)],
                    Json.obj [("id", Json.str "2"), ("rank", Json.num 4)]],
         ⟨0 + 2, [] ++ [getReq adsJsonUrl,
            getReqP ranksUrl [("ids", Json.str "1"), ("ids", Json.str "2")]]⟩) := by
  constructor
  · exact get_all_ads_spec.1 adsTrEmpty ⟨0, []⟩ (Json.obj [("ads", Json.obj [])]) rfl rfl rfl
  · exact get_all_ads_spec.2 adsTrTwo ⟨0, []⟩
      (Json.obj [("ads", Json.obj [("1", Json.obj [("id", Json.str "1")]),
        ("2", Json.obj [("id", Json.str "2")])])])
      (Json.obj [("ranks", Json.obj [("1", Json.num 3), ("2", Json.num 4)])])
      [("1", Json.obj [("id", Json.str "1")]), ("2", Json.obj [("id", Json.str "2")])]
      [("1", Json.num 3), ("2", Json.num 4)]
      [Json.str "1", Json.str "2"]
      rfl rfl rfl (by simp)
      (List.Forall₂.cons rfl (List.Forall₂.cons rfl List.Forall₂.nil))
      rfl rfl rfl (by decide) (by decide)
      (by
        intro p hp
        simp only [List.mem_cons, List.not_mem_nil, or_false] at hp
        rcases hp with rfl | rfl
        · exact ⟨[("id", Json.str "1")], rfl⟩
        · exact ⟨[("id", Json.str "2")], rfl⟩)

/-!
## C3, C4, C9, C10 - posting an ad
-/

/-- Under a successful form-page scrape and image-upload stage,
`post_ad_using_data` reduces to `postAdFinish` on the mutated data dict. -/
theorem post_ad_stage_reduction
    (tr : Transport) (st : St) (data0 : PyDict) (files : List Nat)
    (xtok : List Char) (urls : List Json) (st2 : St) (joined t1 t2 desc : String)
    (hx : searchInitXsrf (tr st.idx).text.data = some xtok)
    (hup : upload_image tr (String.mk xtok) files ⟨st.idx + 1, st.trace ++ [getReq postAdPageUrl]⟩
      = (Except.ok urls, st2))
    (hjoin : pyJoinComma urls = Except.ok joined)
    (ht1 : get_token (tr st.idx).doc "ca.kijiji.xsrf.token" = Except.ok t1)
    (ht2 : get_token (tr st.idx).doc "postAdForm.fraudToken" = Except.ok t2)
    (hdesc : alistGet data0 "postAdForm.description" = some desc) :
    post_ad_using_data tr data0 files st =
      postAdFinish tr
        (alistSet (alistSet (alistSet (alistSet data0 "images" joined)
          "ca.kijiji.xsrf.token" t1) "postAdForm.fraudToken" t2)
          "postAdForm.description" (strReplace desc "\\n" "\n")) st2 := by
  have hdesc3 : alistGet (alistSet (alistSet (alistSet data0 "images" joined)
      "ca.kijiji.xsrf.token" t1) "postAdForm.fraudToken" t2) "postAdForm.description"
      = some desc := by
    rw [alistGet_set_ne _ _ _ _ (by decide), alistGet_set_ne _ _ _ _ (by decide),
        alistGet_set_ne _ _ _ _ (by decide), hdesc]
  simp [post_ad_using_data, stepReq, hx, hup, hjoin, ht1, ht2, hdesc3]

/-- The four in-place mutations of `post_ad_using_data` leave the title field
unchanged. -/
theorem titleOf_mutations (data0 : PyDict) (joined t1 t2 nd : String) :
    titleOf (alistSet (alistSet (alistSet (alistSet data0 "images" joined)
      "ca.kijiji.xsrf.token" t1) "postAdForm.fraudToken" t2)
      "postAdForm.description" nd) = titleOf data0 := by
  unfold titleOf
  rw [alistGet_set_ne _ _ _ _ (by decide), alistGet_set_ne _ _ _ _ (by decide),
      alistGet_set_ne _ _ _ _ (by decide), alistGet_set_ne _ _ _ _ (by decide)]

/-- With a valid title, `postAdFinish` issues the submit POST and never
produces a title-validation error, whatever the response. -/
theorem postAdFinish_valid (tr : Transport) (d : PyDict) (st2 : St)
    (h1 : ¬(titleOf d).length < 10) (h2 : ¬64 < (titleOf d).length) :
    (postAdFinish tr d st2).1 ≠
        Except.error (PyError.kijiji "Your ad title is too short! (min 10 chars)" none)
    ∧ (postAdFinish tr d st2).1 ≠
        Except.error (PyError.kijiji "Your ad title is too long! (max 64 chars)" none)
    ∧ (postAdFinish tr d st2).2.2 =
        ⟨st2.idx + 1,
         st2.trace ++ [postReq submitAdUrl (d.map (fun kv => (kv.1, Json.str kv.2)))]⟩ := by
  unfold postAdFinish
  rw [if_neg h1, if_neg h2]
  simp only [stepReq]
  by_cases hb : statusBad (tr st2.idx)
  · simp [hb]
  · by_cases hdel : strContains (tr st2.idx).text "Delete Ad?"
    · cases hh : headerGet (tr st2.idx).headers "Set-Cookie" with
      | none => simp [hb, hdel, hh]
      | some sc =>
        cases hk : searchKjrva sc.data with
        | none => simp [hb, hdel, hh, hk]
        | some ds => simp [hb, hdel, hh, hk]
    · by_cases hban : strContains (tr st2.idx).text
          "There was an issue posting your ad, please contact Customer Service."
      · simp [hb, hdel, hban]
      · simp [hb, hdel, hban]

/-- C3: in `post_ad_using_data` (after the form-page scrape and image-upload
stage), a title of length in [10, 64] passes validation and the submission
POST is issued; a title shorter than 10 characters (including an absent
title key, treated as the empty string) fails with the too-short
`KijijiApiException`, and one longer than 64 with the too-long one. -/
theorem post_ad_title_boundary
    (tr : Transport) (st : St) (data0 : PyDict) (files : List Nat)
    (xtok : List Char) (urls : List Json) (st2 : St) (joined t1 t2 desc : String)
    (hx : searchInitXsrf (tr st.idx).text.data = some xtok)
    (hup : upload_image tr (String.mk xtok) files ⟨st.idx + 1, st.trace ++ [getReq postAdPageUrl]⟩
      = (Except.ok urls, st2))
    (hjoin : pyJoinComma urls = Except.ok joined)
    (ht1 : get_token (tr st.idx).doc "ca.kijiji.xsrf.token" = Except.ok t1)
    (ht2 : get_token (tr st.idx).doc "postAdForm.fraudToken" = Except.ok t2)
    (hdesc : alistGet data0 "postAdForm.description" = some desc) :
    ((titleOf data0).length < 10 →
      (post_ad_using_data tr data0 files st).1 =
        Except.error (PyError.kijiji "Your ad title is too short! (min 10 chars)" none))
    ∧ (64 < (titleOf data0).length →
      (post_ad_using_data tr data0 files st).1 =
        Except.error (PyError.kijiji "Your ad title is too long! (max 64 chars)" none))
    ∧ (10 ≤ (titleOf data0).length → (titleOf data0).length ≤ 64 →
      (post_ad_using_data tr data0 files st).1 ≠
          Except.error (PyError.kijiji "Your ad title is too short! (min 10 chars)" none)
      ∧ (post_ad_using_data tr data0 files st).1 ≠
          Except.error (PyError.kijiji "Your ad title is too long! (max 64 chars)" none)
      ∧ ∃ pl, (post_ad_using_data tr data0 files st).2.2.trace
          = st2.trace ++ [postReq submitAdUrl pl]) := by
  have hred := post_ad_stage_reduction tr st data0 files xtok urls st2 joined t1 t2 desc
    hx hup hjoin ht1 ht2 hdesc
  have htitle := titleOf_mutations data0 joined t1 t2 (strReplace desc "\\n" "\n")
  refine ⟨?_, ?_, ?_⟩
  · intro hshort
    rw [hred]
    unfold postAdFinish
    rw [htitle, if_pos hshort]
  · intro hlong
    rw [hred]
    unfold postAdFinish
    rw [htitle]
    rw [if_neg (by omega), if_pos hlong]
  · intro hlo hhi
    have h1 : ¬(titleOf (alistSet (alistSet (alistSet (alistSet data0 "images" joined)
        "ca.kijiji.xsrf.token" t1) "postAdForm.fraudToken" t2)
        "postAdForm.description" (strReplace desc "\\n" "\n"))).length < 10 := by
      rw [htitle]; omega
    have h2 : ¬64 < (titleOf (alistSet (alistSet (alistSet (alistSet data0 "images" joined)
        "ca.kijiji.xsrf.token" t1) "postAdForm.fraudToken" t2)
        "postAdForm.description" (strReplace desc "\\n" "\n"))).length := by
      rw [htitle]; omega
    obtain ⟨ha, hb, hc⟩ := postAdFinish_valid tr _ st2 h1 h2
    rw [hred]
    exact ⟨ha, hb, _, by rw [hc]⟩

/-- Parsed posting-form page: the two hidden token inputs. -/
def postPageDoc : Doc :=
  ⟨"<postpage>",
   [⟨"input", [("name", "ca.kijiji.xsrf.token"), ("value", "XT")], none⟩,
    ⟨"input", [("name", "postAdForm.fraudToken"), ("value", "FT")], none⟩]⟩

/-- Posting-form page response, carrying the inline `initialXsrfToken`. -/
def postPageResp : Resp := ⟨200, "initialXsrfToken: \x27TK\x27", postPageDoc, []⟩

/-- Successful ad-submission response with the ad id in `Set-Cookie`. -/
def submitOkResp : Resp := ⟨200, "Delete Ad?", ⟨"", []⟩, [("Set-Cookie", "kjrva=99")]⟩

def postTr : Transport := fun k => if k = 0 then postPageResp else submitOkResp

def dataT9 : PyDict :=
  [("postAdForm.description", "a\\nb"), ("postAdForm.title", "123456789")]

def dataT10 : PyDict :=
  [("postAdForm.description", "a\\nb"), ("postAdForm.title", "1234567890")]

def dataT64 : PyDict :=
  [("postAdForm.description", "a\\nb"),
   ("postAdForm.title", "0123456789012345678901234567890123456789012345678901234567890123")]

def dataT65 : PyDict :=
  [("postAdForm.description", "a\\nb"),
   ("postAdForm.title", "01234567890123456789012345678901234567890123456789012345678901234")]

def dataNoTitle : PyDict := [("postAdForm.description", "a\\nb")]

/-- Witness for C3 at concrete inputs: titles of lengths 9, 65 and an absent
title are rejected with the corresponding validation error; titles of
lengths 10 and 64 reach the submission POST. -/
theorem post_ad_title_boundary_witness :
    (post_ad_using_data postTr dataT9 [] ⟨0, []⟩).1 =
        Except.error (PyError.kijiji "Your ad title is too short! (min 10 chars)" none)
    ∧ (post_ad_using_data postTr dataNoTitle [] ⟨0, []⟩).1 =
        Except.error (PyError.kijiji "Your ad title is too short! (min 10 chars)" none)
    ∧ (post_ad_using_data postTr dataT65 [] ⟨0, []⟩).1 =
        Except.error (PyError.kijiji "Your ad title is too long! (max 64 chars)" none)
    ∧ ((post_ad_using_data postTr dataT10 [] ⟨0, []⟩).1 ≠
          Except.error (PyError.kijiji "Your ad title is too short! (min 10 chars)" none)
      ∧ (post_ad_using_data postTr dataT10 [] ⟨0, []⟩).1 ≠
          Except.error (PyError.kijiji "Your ad title is too long! (max 64 chars)" none)
      ∧ ∃ pl, (post_ad_using_data postTr dataT10 [] ⟨0, []⟩).2.2.trace
          = (⟨1, [getReq postAdPageUrl]⟩ : St).trace ++ [postReq submitAdUrl pl])
    ∧ ((post_ad_using_data postTr dataT64 [] ⟨0, []⟩).1 ≠
          Except.error (PyError.kijiji "Your ad title is too short! (min 10 chars)" none)
      ∧ (post_ad_using_data postTr dataT64 [] ⟨0, []⟩).1 ≠
          Except.error (PyError.kijiji "Your ad title is too long! (max 64 chars)" none)
      ∧ ∃ pl, (post_ad_using_data postTr dataT64 [] ⟨0, []⟩).2.2.trace
          = (⟨1, [getReq postAdPageUrl]⟩ : St).trace ++ [postReq submitAdUrl pl]) := by
  refine ⟨?_, ?_, ?_, ?_, ?_⟩
  · exact (post_ad_title_boundary postTr ⟨0, []⟩ dataT9 [] "TK".data [] ⟨1, [getReq postAdPageUrl]⟩
      "" "XT" "FT" "a\\nb" rfl rfl rfl rfl rfl rfl).1 (by decide)
  · exact (post_ad_title_boundary postTr ⟨0, []⟩ dataNoTitle [] "TK".data []
      ⟨1, [getReq postAdPageUrl]⟩ "" "XT" "FT" "a\\nb" rfl rfl rfl rfl rfl rfl).1 (by decide)
  · exact (post_ad_title_boundary postTr ⟨0, []⟩ dataT65 [] "TK".data []
      ⟨1, [getReq postAdPageUrl]⟩ "" "XT" "FT" "a\\nb" rfl rfl rfl rfl rfl rfl).2.1 (by decide)
  · exact (post_ad_title_boundary postTr ⟨0, []⟩ dataT10 [] "TK".data []
      ⟨1, [getReq postAdPageUrl]⟩ "" "XT" "FT" "a\\nb" rfl rfl rfl rfl rfl rfl).2.2
      (by decide) (by decide)
  · exact (post_ad_title_boundary postTr ⟨0, []⟩ dataT64 [] "TK".data []
      ⟨1, [getReq postAdPageUrl]⟩ "" "XT" "FT" "a\\nb" rfl rfl rfl rfl rfl rfl).2.2
      (by decide) (by decide)

/-- C4 falls on the code as stated: at this concrete input the title is
invalid (5 characters) and `post_ad_using_data` does raise the title
`KijijiApiException` - but a network request (the posting-form GET) has
already been issued before the validation check fires, so the trace at the
moment the error is raised is not empty. -/
theorem post_ad_requests_before_validation_cex :
    (post_ad_using_data postTr
        [("postAdForm.description", "a\\nb"), ("postAdForm.title", "short")] [] ⟨0, []⟩).1 =
      Except.error (PyError.kijiji "Your ad title is too short! (min 10 chars)" none)
    ∧ (post_ad_using_data postTr
        [("postAdForm.description", "a\\nb"), ("postAdForm.title", "short")] [] ⟨0, []⟩).2.2.trace
      = [getReq postAdPageUrl]
    ∧ ([getReq postAdPageUrl] : List Request) ≠ [] := by
  exact ⟨rfl, rfl, by simp⟩

/-- C4 (amended): with invalid caller-supplied title data,
`post_ad_using_data` raises the title `KijijiApiException` before the
ad-submission stage's network call: the POST to the submit endpoint is never
issued (every request issued by the call - the posting-form GET and the
image-upload POSTs - goes elsewhere).  The claim's stronger reading that no
request at all precedes the validation check is refuted by
`post_ad_requests_before_validation_cex`. -/
theorem post_ad_no_submit_on_invalid_title
    (tr : Transport) (st : St) (data0 : PyDict) (files : List Nat)
    (xtok : List Char) (urls : List Json) (st2 : St) (joined t1 t2 desc : String)
    (hx : searchInitXsrf (tr st.idx).text.data = some xtok)
    (hup : upload_image tr (String.mk xtok) files ⟨st.idx + 1, st.trace ++ [getReq postAdPageUrl]⟩
      = (Except.ok urls, st2))
    (hjoin : pyJoinComma urls = Except.ok joined)
    (ht1 : get_token (tr st.idx).doc "ca.kijiji.xsrf.token" = Except.ok t1)
    (ht2 : get_token (tr st.idx).doc "postAdForm.fraudToken" = Except.ok t2)
    (hdesc : alistGet data0 "postAdForm.description" = some desc)
    (hinv : (titleOf data0).length < 10 ∨ 64 < (titleOf data0).length) :
    (∃ m, (post_ad_using_data tr data0 files st).1 = Except.error (PyError.kijiji m none)
      ∧ (m = "Your ad title is too short! (min 10 chars)"
         ∨ m = "Your ad title is too long! (max 64 chars)"))
    ∧ (post_ad_using_data tr data0 files st).2.2 = st2
    ∧ ∃ ext, st2.trace = st.trace ++ ext ∧ ∀ q ∈ ext, q.url ≠ submitAdUrl := by
  have hred := post_ad_stage_reduction tr st data0 files xtok urls st2 joined t1 t2 desc
    hx hup hjoin ht1 ht2 hdesc
  have htitle := titleOf_mutations data0 joined t1 t2 (strReplace desc "\\n" "\n")
  obtain ⟨uext, huext, hulen, humem⟩ := upload_image_trace tr (String.mk xtok) files
    ⟨st.idx + 1, st.trace ++ [getReq postAdPageUrl]⟩
  rw [hup] at huext
  have huext2 : st2 = ⟨st.idx + 1 + uext.length,
      (st.trace ++ [getReq postAdPageUrl]) ++ uext⟩ := huext
  have htr : st2.trace = st.trace ++ ([getReq postAdPageUrl] ++ uext) := by
    rw [huext2]
    simp [List.append_assoc]
  have hmemext : ∀ q ∈ [getReq postAdPageUrl] ++ uext, q.url ≠ submitAdUrl := by
    intro q hq
    rcases List.mem_append.mp hq with h | h
    · rw [List.mem_singleton] at h
      rw [h]
      decide
    · rw [(humem q h).2]
      decide
  refine ⟨?_, ?_, [getReq postAdPageUrl] ++ uext, htr, hmemext⟩
  · rw [hred]
    unfold postAdFinish
    rw [htitle]
    rcases hinv with hinv | hinv
    · rw [if_pos hinv]
      exact ⟨_, rfl, Or.inl rfl⟩
    · rw [if_neg (by omega), if_pos hinv]
      exact ⟨_, rfl, Or.inr rfl⟩
  · rw [hred]
    unfold postAdFinish
    rw [htitle]
    rcases hinv with hinv | hinv
    · rw [if_pos hinv]
    · rw [if_neg (by omega), if_pos hinv]

/-- Witness for C4's amended theorem at a concrete input: a 9-character
title is rejected, the final state is the upload-stage state, and no issued
request targets the submit endpoint. -/
theorem post_ad_no_submit_on_invalid_title_witness :
    (∃ m, (post_ad_using_data postTr dataT9 [] ⟨0, []⟩).1 =
        Except.error (PyError.kijiji m none)
      ∧ (m = "Your ad title is too short! (min 10 chars)"
         ∨ m = "Your ad title is too long! (max 64 chars)"))
    ∧ (post_ad_using_data postTr dataT9 [] ⟨0, []⟩).2.2 =
        (⟨1, [getReq postAdPageUrl]⟩ : St)
    ∧ ∃ ext, (⟨1, [getReq postAdPageUrl]⟩ : St).trace = ([] : List Request) ++ ext
      ∧ ∀ q ∈ ext, q.url ≠ submitAdUrl :=
  post_ad_no_submit_on_invalid_title postTr ⟨0, []⟩ dataT9 [] "TK".data []
    ⟨1, [getReq postAdPageUrl]⟩ "" "XT" "FT" "a\\nb" rfl rfl rfl rfl rfl rfl
    (Or.inl (by decide))

/-- C9: before the title validation, `post_ad_using_data` has already
mutated the caller's data mapping: after a title-length failure the returned
mapping is the original with `images` (the comma-joined upload URLs), the
hidden xsrf token, the fraud token, and the rewritten description
(`\n` escape sequences replaced by real newlines) written into it - the
error is not atomic with respect to the caller's data. -/
theorem post_ad_mutates_data_before_validation
    (tr : Transport) (st : St) (data0 : PyDict) (files : List Nat)
    (xtok : List Char) (urls : List Json) (st2 : St) (joined t1 t2 desc : String)
    (hx : searchInitXsrf (tr st.idx).text.data = some xtok)
    (hup : upload_image tr (String.mk xtok) files ⟨st.idx + 1, st.trace ++ [getReq postAdPageUrl]⟩
      = (Except.ok urls, st2))
    (hjoin : pyJoinComma urls = Except.ok joined)
    (ht1 : get_token (tr st.idx).doc "ca.kijiji.xsrf.token" = Except.ok t1)
    (ht2 : get_token (tr st.idx).doc "postAdForm.fraudToken" = Except.ok t2)
    (hdesc : alistGet data0 "postAdForm.description" = some desc)
    (hinv : (titleOf data0).length < 10 ∨ 64 < (titleOf data0).length) :
    (∃ m, (post_ad_using_data tr data0 files st).1 = Except.error (PyError.kijiji m none))
    ∧ (post_ad_using_data tr data0 files st).2.1 =
        alistSet (alistSet (alistSet (alistSet data0 "images" joined)
          "ca.kijiji.xsrf.token" t1) "postAdForm.fraudToken" t2)
          "postAdForm.description" (strReplace desc "\\n" "\n")
    ∧ alistGet (post_ad_using_data tr data0 files st).2.1 "images" = some joined
    ∧ alistGet (post_ad_using_data tr data0 files st).2.1 "ca.kijiji.xsrf.token" = some t1
    ∧ alistGet (post_ad_using_data tr data0 files st).2.1 "postAdForm.fraudToken" = some t2
    ∧ alistGet (post_ad_using_data tr data0 files st).2.1 "postAdForm.description"
        = some (strReplace desc "\\n" "\n") := by
  have hred := post_ad_stage_reduction tr st data0 files xtok urls st2 joined t1 t2 desc
    hx hup hjoin ht1 ht2 hdesc
  have htitle := titleOf_mutations data0 joined t1 t2 (strReplace desc "\\n" "\n")
  have hdata : (post_ad_using_data tr data0 files st).2.1 =
      alistSet (alistSet (alistSet (alistSet data0 "images" joined)
        "ca.kijiji.xsrf.token" t1) "postAdForm.fraudToken" t2)
        "postAdForm.description" (strReplace desc "\\n" "\n") := by
    rw [hred]
    unfold postAdFinish
    rw [htitle]
    rcases hinv with hinv | hinv
    · rw [if_pos hinv]
    · rw [if_neg (by omega), if_pos hinv]
  refine ⟨?_, hdata, ?_, ?_, ?_, ?_⟩
  · rw [hred]
    unfold postAdFinish
    rw [htitle]
    rcases hinv with hinv | hinv
    · rw [if_pos hinv]
      exact ⟨_, rfl⟩
    · rw [if_neg (by omega), if_pos hinv]
      exact ⟨_, rfl⟩
  · rw [hdata, alistGet_set_ne _ _ _ _ (by decide), alistGet_set_ne _ _ _ _ (by decide),
      alistGet_set_ne _ _ _ _ (by decide), alistGet_set_self]
  · rw [hdata, alistGet_set_ne _ _ _ _ (by decide), alistGet_set_ne _ _ _ _ (by decide),
      alistGet_set_self]
  · rw [hdata, alistGet_set_ne _ _ _ _ (by decide), alistGet_set_self]
  · rw [hdata, alistGet_set_self]

/-- Witness for C9 at a concrete input: the rejected call has already
written all four fields into the caller's mapping. -/
theorem post_ad_mutates_data_before_validation_witness :
    (∃ m, (post_ad_using_data postTr dataT9 [] ⟨0, []⟩).1 =
        Except.error (PyError.kijiji m none))
    ∧ (post_ad_using_data postTr dataT9 [] ⟨0, []⟩).2.1 =
        alistSet (alistSet (alistSet (alistSet dataT9 "images" "")
          "ca.kijiji.xsrf.token" "XT") "postAdForm.fraudToken" "FT")
          "postAdForm.description" (strReplace "a\\nb" "\\n" "\n")
    ∧ alistGet (post_ad_using_data postTr dataT9 [] ⟨0, []⟩).2.1 "images" = some ""
    ∧ alistGet (post_ad_using_data postTr dataT9 [] ⟨0, []⟩).2.1 "ca.kijiji.xsrf.token"
        = some "XT"
    ∧ alistGet (post_ad_using_data postTr dataT9 [] ⟨0, []⟩).2.1 "postAdForm.fraudToken"
        = some "FT"
    ∧ alistGet (post_ad_using_data postTr dataT9 [] ⟨0, []⟩).2.1 "postAdForm.description"
        = some (strReplace "a\\nb" "\\n" "\n") :=
  post_ad_mutates_data_before_validation postTr ⟨0, []⟩ dataT9 [] "TK".data []
    ⟨1, [getReq postAdPageUrl]⟩ "" "XT" "FT" "a\\nb" rfl rfl rfl rfl rfl rfl
    (Or.inl (by decide))

/-- C10: on the success path (response carries the "Delete Ad?" marker) the
new ad id is the digit string of the `kjrva=<digits>` pattern in the
`Set-Cookie` response header, and the extraction is unguarded: an absent
`Set-Cookie` header yields a bare `KeyError` and a header without the
pattern a bare `AttributeError` - untyped runtime errors, never the
program's own `KijijiApiException`. -/
theorem post_ad_cookie_scrape_unguarded
    (tr : Transport) (st : St) (data0 : PyDict) (files : List Nat)
    (xtok : List Char) (urls : List Json) (st2 : St) (joined t1 t2 desc : String)
    (hx : searchInitXsrf (tr st.idx).text.data = some xtok)
    (hup : upload_image tr (String.mk xtok) files ⟨st.idx + 1, st.trace ++ [getReq postAdPageUrl]⟩
      = (Except.ok urls, st2))
    (hjoin : pyJoinComma urls = Except.ok joined)
    (ht1 : get_token (tr st.idx).doc "ca.kijiji.xsrf.token" = Except.ok t1)
    (ht2 : get_token (tr st.idx).doc "postAdForm.fraudToken" = Except.ok t2)
    (hdesc : alistGet data0 "postAdForm.description" = some desc)
    (hlo : 10 ≤ (titleOf data0).length) (hhi : (titleOf data0).length ≤ 64)
    (hb1 : statusBad (tr st2.idx) = false)
    (hmk : strContains (tr st2.idx).text "Delete Ad?" = true) :
    (headerGet (tr st2.idx).headers "Set-Cookie" = none →
      (post_ad_using_data tr data0 files st).1 = Except.error PyError.keyError)
    ∧ (∀ sc, headerGet (tr st2.idx).headers "Set-Cookie" = some sc →
        searchKjrva sc.data = none →
        (post_ad_using_data tr data0 files st).1 = Except.error PyError.attributeError)
    ∧ (∀ sc ds, headerGet (tr st2.idx).headers "Set-Cookie" = some sc →
        searchKjrva sc.data = some ds →
        (post_ad_using_data tr data0 files st).1 = Except.ok (String.mk ds))
    ∧ ((headerGet (tr st2.idx).headers "Set-Cookie" = none
        ∨ ∃ sc, headerGet (tr st2.idx).headers "Set-Cookie" = some sc
            ∧ searchKjrva sc.data = none) →
      ∀ m d, (post_ad_using_data tr data0 files st).1 ≠
        Except.error (PyError.kijiji m d)) := by
  have hred := post_ad_stage_reduction tr st data0 files xtok urls st2 joined t1 t2 desc
    hx hup hjoin ht1 ht2 hdesc
  have htitle := titleOf_mutations data0 joined t1 t2 (strReplace desc "\\n" "\n")
  have hkey : ∀ r : Except PyError String × PyDict × St,
      (post_ad_using_data tr data0 files st = r) →
      post_ad_using_data tr data0 files st = r := fun _ h => h
  have hcore : post_ad_using_data tr data0 files st =
      (match headerGet (tr st2.idx).headers "Set-Cookie" with
       | none => (Except.error PyError.keyError,
           alistSet (alistSet (alistSet (alistSet data0 "images" joined)
             "ca.kijiji.xsrf.token" t1) "postAdForm.fraudToken" t2)
             "postAdForm.description" (strReplace desc "\\n" "\n"),
           ⟨st2.idx + 1, st2.trace ++ [postReq submitAdUrl
             ((alistSet (alistSet (alistSet (alistSet data0 "images" joined)
               "ca.kijiji.xsrf.token" t1) "postAdForm.fraudToken" t2)
               "postAdForm.description" (strReplace desc "\\n" "\n")).map
                 (fun kv => (kv.1, Json.str kv.2)))]⟩)
       | some sc =>
         match searchKjrva sc.data with
         | none => (Except.error PyError.attributeError,
             alistSet (alistSet (alistSet (alistSet data0 "images" joined)
               "ca.kijiji.xsrf.token" t1) "postAdForm.fraudToken" t2)
               "postAdForm.description" (strReplace desc "\\n" "\n"),
             ⟨st2.idx + 1, st2.trace ++ [postReq submitAdUrl
               ((alistSet (alistSet (alistSet (alistSet data0 "images" joined)
                 "ca.kijiji.xsrf.token" t1) "postAdForm.fraudToken" t2)
                 "postAdForm.description" (strReplace desc "\\n" "\n")).map
                   (fun kv => (kv.1, Json.str kv.2)))]⟩)
         | some ds => (Except.ok (String.mk ds),
             alistSet (alistSet (alistSet (alistSet data0 "images" joined)
               "ca.kijiji.xsrf.token" t1) "postAdForm.fraudToken" t2)
               "postAdForm.description" (strReplace desc "\\n" "\n"),
             ⟨st2.idx + 1, st2.trace ++ [postReq submitAdUrl
               ((alistSet (alistSet (alistSet (alistSet data0 "images" joined)
                 "ca.kijiji.xsrf.token" t1) "postAdForm.fraudToken" t2)
                 "postAdForm.description" (strReplace desc "\\n" "\n")).map
                   (fun kv => (kv.1, Json.str kv.2)))]⟩)) := by
    rw [hred]
    unfold postAdFinish
    rw [htitle]
    rw [if_neg (by omega), if_neg (by omega)]
    simp only [stepReq, hb1, Bool.false_eq_true, if_false, hmk, Bool.not_true]
  refine ⟨?_, ?_, ?_, ?_⟩
  · intro hh
    rw [hcore, hh]
  · intro sc hh hk
    rw [hcore, hh]
    simp only [hk]
  · intro sc ds hh hk
    rw [hcore, hh]
    simp only [hk]
  · intro hcase m d
    rcases hcase with hh | ⟨sc, hh, hk⟩
    · rw [hcore, hh]
      simp
    · rw [hcore, hh]
      simp [hk]

/-- Success-marked submission response lacking a `Set-Cookie` header. -/
def submitNoCookieResp : Resp := ⟨200, "Delete Ad?", ⟨"", []⟩, []⟩

/-- Success-marked submission response whose `Set-Cookie` lacks the
`kjrva=<digits>` pattern. -/
def submitBadCookieResp : Resp := ⟨200, "Delete Ad?", ⟨"", []⟩, [("Set-Cookie", "foo=1")]⟩

def postTrNoCookie : Transport := fun k => if k = 0 then postPageResp else submitNoCookieResp

def postTrBadCookie : Transport := fun k => if k = 0 then postPageResp else submitBadCookieResp

/-- Witness for C10 at concrete inputs: a missing `Set-Cookie` gives
`KeyError`, a patternless one `AttributeError` (in both cases not a
`KijijiApiException`), and the pattern yields the digit string as ad id. -/
theorem post_ad_cookie_scrape_unguarded_witness :
    (post_ad_using_data postTrNoCookie dataT10 [] ⟨0, []⟩).1 = Except.error PyError.keyError
    ∧ (post_ad_using_data postTrBadCookie dataT10 [] ⟨0, []⟩).1 =
        Except.error PyError.attributeError
    ∧ (post_ad_using_data postTr dataT10 [] ⟨0, []⟩).1 = Except.ok "99"
    ∧ (∀ m d, (post_ad_using_data postTrNoCookie dataT10 [] ⟨0, []⟩).1 ≠
        Except.error (PyError.kijiji m d)) := by
  refine ⟨?_, ?_, ?_, ?_⟩
  · exact (post_ad_cookie_scrape_unguarded postTrNoCookie ⟨0, []⟩ dataT10 [] "TK".data []
      ⟨1, [getReq postAdPageUrl]⟩ "" "XT" "FT" "a\\nb" rfl rfl rfl rfl rfl rfl
      (by decide) (by decide) rfl rfl).1 rfl
  · exact (post_ad_cookie_scrape_unguarded postTrBadCookie ⟨0, []⟩ dataT10 [] "TK".data []
      ⟨1, [getReq postAdPageUrl]⟩ "" "XT" "FT" "a\\nb" rfl rfl rfl rfl rfl rfl
      (by decide) (by decide) rfl rfl).2.1 "foo=1" (by decide) rfl
  · exact (post_ad_cookie_scrape_unguarded postTr ⟨0, []⟩ dataT10 [] "TK".data []
      ⟨1, [getReq postAdPageUrl]⟩ "" "XT" "FT" "a\\nb" rfl rfl rfl rfl rfl rfl
      (by decide) (by decide) rfl rfl).2.2.1 "kjrva=99" "99".data (by decide) rfl
  · exact (post_ad_cookie_scrape_unguarded postTrNoCookie ⟨0, []⟩ dataT10 [] "TK".data []
      ⟨1, [getReq postAdPageUrl]⟩ "" "XT" "FT" "a\\nb" rfl rfl rfl rfl rfl rfl
      (by decide) (by decide) rfl rfl).2.2.2 (Or.inl rfl)

/-!
## C7 - deleting ads by title
-/

/-- Under a transport whose pages always scrape to the same xsrf token and
whose responses carry the "OK" marker, one `delete_ad` call issues exactly
its management-page GET and delete POST and succeeds. -/
theorem delete_ad_ok (yl : String → Except PyError Json) (tr : Transport) (tok : Json)
    (hx : ∀ k, get_xsrf_token yl (tr k).doc = Except.ok tok)
    (hok : ∀ k, strContains (tr k).text "OK" = true)
    (i : Json) (st : St) :
    delete_ad yl tr i st =
      (Except.ok (),
       ⟨st.idx + 2,
        st.trace ++ [getReq myAdsUrl, postReq deleteJsonUrl (deleteParams i tok)]⟩) := by
  simp [delete_ad, stepReq, hx st.idx, hok (st.idx + 1)]

/-- The deletion comprehension deletes exactly the ads whose stripped title
matches, in order. -/
theorem deleteMatching_spec (yl : String → Except PyError Json) (tr : Transport)
    (tok : Json) (title : String)
    (hx : ∀ k, get_xsrf_token yl (tr k).doc = Except.ok tok)
    (hok : ∀ k, strContains (tr k).text "OK" = true)
    (ads : List Json) (tps : List (String × Json))
    (hf : List.Forall₂ (fun ad p => jsonGetItem ad "title" = Except.ok (Json.str p.1)
      ∧ jsonGetItem ad "id" = Except.ok p.2) ads tps) :
    ∀ st : St,
      deleteMatching yl tr title ads st =
        (Except.ok (),
         ⟨st.idx + 2 * (tps.filter (fun p => pyStrip p.1 == pyStrip title)).length,
          st.trace ++ (tps.filter (fun p => pyStrip p.1 == pyStrip title)).flatMap
            (fun p => [getReq myAdsUrl, postReq deleteJsonUrl (deleteParams p.2 tok)])⟩) := by
  induction hf with
  | nil => intro st; simp [deleteMatching]
  | @cons ad p ads2 tps2 hrel hrest ih =>
    intro st
    obtain ⟨htl, hid⟩ := hrel
    by_cases hm : pyStrip p.1 = pyStrip title
    · have hdel := delete_ad_ok yl tr tok hx hok p.2 st
      have hrec := ih ⟨st.idx + 2,
        st.trace ++ [getReq myAdsUrl, postReq deleteJsonUrl (deleteParams p.2 tok)]⟩
      simp only [deleteMatching, htl, hm, if_pos rfl, hid, hdel]
      rw [hrec]
      simp [List.filter_cons, hm, St.mk.injEq, List.append_assoc]
      omega
    · simp only [deleteMatching, htl, if_neg hm]
      rw [ih st]
      have : (List.filter (fun p => pyStrip p.1 == pyStrip title) ((p :: tps2))) =
          List.filter (fun p => pyStrip p.1 == pyStrip title) tps2 := by
        simp [List.filter_cons, hm]
      rw [this]

/-- C7: `delete_ad_using_title(title)` fetches all ads and invokes the
delete operation exactly on the ads whose stripped title equals the stripped
given title - all duplicate matches, including titles differing only in
surrounding whitespace, and no others. -/
theorem delete_ad_using_title_spec
    (yl : String → Except PyError Json) (tr : Transport) (title : String)
    (st st1 : St) (allAds : List Json) (tps : List (String × Json)) (tok : Json)
    (hads : get_all_ads tr st = (Except.ok allAds, st1))
    (hf : List.Forall₂ (fun ad p => jsonGetItem ad "title" = Except.ok (Json.str p.1)
      ∧ jsonGetItem ad "id" = Except.ok p.2) allAds tps)
    (hx : ∀ k, get_xsrf_token yl (tr k).doc = Except.ok tok)
    (hok : ∀ k, strContains (tr k).text "OK" = true) :
    delete_ad_using_title yl tr title st =
      (Except.ok (),
       ⟨st1.idx + 2 * (tps.filter (fun p => pyStrip p.1 == pyStrip title)).length,
        st1.trace ++ (tps.filter (fun p => pyStrip p.1 == pyStrip title)).flatMap
          (fun p => [getReq myAdsUrl, postReq deleteJsonUrl (deleteParams p.2 tok)])⟩) := by
  simp [delete_ad_using_title, hads,
    deleteMatching_spec yl tr tok title hx hok allAds tps hf st1]

/-- Ads management page whose inline script carries the `Zoop.init` config. -/
def zoopDoc : Doc :=
  ⟨"<zoop>", [⟨"script", [], some "Zoop.init(\x7b config: \x7btoken: 1\x7d, \x7d);"⟩]⟩

/-- One response serving every role of the C7 scenario: its text is the ads
JSON (three ads, two titled "Foo" modulo whitespace), contains "OK", and its
parse carries the `Zoop.init` config script. -/
def c7Resp : Resp :=
  ⟨200,
   "\x7b\"ads\":\x7b\"1\":\x7b\"title\":\"Foo\",\"id\":\"1\"\x7d,\"2\":\x7b\"title\":\"Foo \",\"id\":\"2\"\x7d,\"3\":\x7b\"title\":\"Bar\",\"id\":\"3\"\x7d\x7d,\"ranks\":\x7b\"1\":1,\"2\":2,\"3\":3\x7d,\"OK\":true\x7d",
   zoopDoc, []⟩

def c7Tr : Transport := fun _ => c7Resp

/-- Relaxed-parser collaborator for the C7 scenario. -/
def ylW : String → Except PyError Json := fun _ => Except.ok (Json.obj [("token", Json.str "ZT")])

/-- Witness for C7 at a concrete input: of three ads, the two whose stripped
titles equal "Foo" (one with trailing whitespace) are each deleted - two
GET/POST delete pairs - and the "Bar" ad is untouched. -/
theorem delete_ad_using_title_spec_witness :
    delete_ad_using_title ylW c7Tr "Foo" ⟨0, []⟩ =
      (Except.ok (),
       ⟨6, [getReq adsJsonUrl,
            getReqP ranksUrl [("ids", Json.str "1"), ("ids", Json.str "2"), ("ids", Json.str "3")],
            getReq myAdsUrl,
            postReq deleteJsonUrl (deleteParams (Json.str "1") (Json.str "ZT")),
            getReq myAdsUrl,
            postReq deleteJsonUrl (deleteParams (Json.str "2") (Json.str "ZT"))]⟩) :=
  delete_ad_using_title_spec ylW c7Tr "Foo" ⟨0, []⟩
    ⟨2, [getReq adsJsonUrl,
         getReqP ranksUrl [("ids", Json.str "1"), ("ids", Json.str "2"), ("ids", Json.str "3")]]⟩
    [Json.obj [("title", Json.str "Foo"), ("id", Json.str "1"), ("rank", Json.num 1)],
     Json.obj [("title", Json.str "Foo "), ("id", Json.str "2"), ("rank", Json.num 2)],
     Json.obj [("title", Json.str "Bar"), ("id", Json.str "3"), ("rank", Json.num 3)]]
    [("Foo", Json.str "1"), ("Foo ", Json.str "2"), ("Bar", Json.str "3")]
    (Json.str "ZT")
    rfl
    (List.Forall₂.cons ⟨rfl, rfl⟩ (List.Forall₂.cons ⟨rfl, rfl⟩
      (List.Forall₂.cons ⟨rfl, rfl⟩ List.Forall₂.nil)))
    (fun _ => rfl) (fun _ => rfl)

/-!
## C8 - login
-/

/-- C8: `login` POSTs the credentials together with the scraped hidden xsrf
token and the `targetUrl` from the embedded JSON config, then re-verifies
with the stateless `is_logged_in` probe (a GET of the authenticated-only ads
page): with the "Sign Out" marker present it returns normally, and with the
marker absent it raises `KijijiApiException` carrying a dump of the
post-login response body. -/
theorem login_spec (tr : Transport) (st : St) (username password : String)
    (tok : String) (d cfg tUrl : Json)
    (ht : get_token (tr st.idx).doc "ca.kijiji.xsrf.token" = Except.ok tok)
    (hd : get_kj_data (tr st.idx).doc = Except.ok d)
    (hc : jsonGetItem d "config" = Except.ok cfg)
    (hu : jsonGetItem cfg "targetUrl" = Except.ok tUrl) :
    (login tr username password st).2 =
      ⟨st.idx + 3,
       st.trace ++ [getReq loginUrl,
         postReq loginUrl
           [("emailOrNickname", Json.str username), ("password", Json.str password),
            ("rememberMe", Json.str "true"), ("_rememberMe", Json.str "on"),
            ("ca.kijiji.xsrf.token", Json.str tok), ("targetUrl", tUrl)],
         getReq myAdsSlashUrl]⟩
    ∧ (strContains (tr (st.idx + 2)).text "Sign Out" = true →
        (login tr username password st).1 = Except.ok ())
    ∧ (strContains (tr (st.idx + 2)).text "Sign Out" = false →
        (login tr username password st).1 =
          Except.error (PyError.kijiji "Could not log in." (some (tr (st.idx + 1)).text))) := by
  by_cases hs : strContains (tr (st.idx + 2)).text "Sign Out"
  · refine ⟨?_, fun _ => ?_, fun hcon => ?_⟩
    · simp [login, is_logged_in, stepReq, ht, hd, hc, hu, hs]
    · simp [login, is_logged_in, stepReq, ht, hd, hc, hu, hs]
    · rw [hcon] at hs
      simp at hs
  · have hs' : strContains (tr (st.idx + 2)).text "Sign Out" = false := by
      simpa using hs
    refine ⟨?_, fun hcon => ?_, fun _ => ?_⟩
    · simp [login, is_logged_in, stepReq, ht, hd, hc, hu, hs']
    · rw [hcon] at hs'
      simp at hs'
    · simp [login, is_logged_in, stepReq, ht, hd, hc, hu, hs']

/-- Parsed login page: the hidden xsrf input plus the embedded-JSON config
script carrying `targetUrl`. -/
def loginDoc : Doc :=
  ⟨"<login>",
   [⟨"input", [("name", "ca.kijiji.xsrf.token"), ("value", "LT")], none⟩,
    ⟨"script", [], some "window.__data=\x7b\"config\":\x7b\"targetUrl\":\"/T\"\x7d\x7d;"⟩]⟩

def loginPageResp : Resp := ⟨200, "<login-body>", loginDoc, []⟩

def loginPostResp : Resp := ⟨200, "<post-body>", ⟨"", []⟩, []⟩

def myAdsInResp : Resp := ⟨200, "Hello Sign Out world", ⟨"", []⟩, []⟩

def myAdsOutResp : Resp := ⟨200, "Hello anonymous", ⟨"", []⟩, []⟩

def loginTrOk : Transport := fun k =>
  if k = 0 then loginPageResp else if k = 1 then loginPostResp else myAdsInResp

def loginTrBad : Transport := fun k =>
  if k = 0 then loginPageResp else if k = 1 then loginPostResp else myAdsOutResp

/-- Witness for C8 at concrete inputs: a "Sign Out"-marked ads page leaves
login successful with exactly the GET/POST/probe trace, an unmarked one
raises with the POST body dumped. -/
theorem login_spec_witness :
    (login loginTrOk "user" "pw" ⟨0, []⟩).2 =
      ⟨0 + 3,
       [] ++ [getReq loginUrl,
         postReq loginUrl
           [("emailOrNickname", Json.str "user"), ("password", Json.str "pw"),
            ("rememberMe", Json.str "true"), ("_rememberMe", Json.str "on"),
            ("ca.kijiji.xsrf.token", Json.str "LT"), ("targetUrl", Json.str "/T")],
         getReq myAdsSlashUrl]⟩
    ∧ (login loginTrOk "user" "pw" ⟨0, []⟩).1 = Except.ok ()
    ∧ (login loginTrBad "user" "pw" ⟨0, []⟩).1 =
        Except.error (PyError.kijiji "Could not log in." (some "<post-body>")) := by
  refine ⟨?_, ?_, ?_⟩
  · exact (login_spec loginTrOk ⟨0, []⟩ "user" "pw" "LT"
      (Json.obj [("config", Json.obj [("targetUrl", Json.str "/T")])])
      (Json.obj [("targetUrl", Json.str "/T")]) (Json.str "/T") rfl rfl rfl rfl).1
  · exact (login_spec loginTrOk ⟨0, []⟩ "user" "pw" "LT"
      (Json.obj [("config", Json.obj [("targetUrl", Json.str "/T")])])
      (Json.obj [("targetUrl", Json.str "/T")]) (Json.str "/T") rfl rfl rfl rfl).2.1 rfl
  · exact (login_spec loginTrBad ⟨0, []⟩ "user" "pw" "LT"
      (Json.obj [("config", Json.obj [("targetUrl", Json.str "/T")])])
      (Json.obj [("targetUrl", Json.str "/T")]) (Json.str "/T") rfl rfl rfl rfl).2.2 rfl

/-- Witness for C6's amended theorem at concrete inputs: a lone inline
script holding exactly the assignment yields the parsed object, and a page
whose only inline script has no match raises the dumping exception. -/
theorem get_kj_data_spec_witness :
    get_kj_data ⟨"<p>", [⟨"script", [], some "window.__data=\x7b\"a\":1\x7d;"⟩]⟩
      = Except.ok (Json.obj [("a", Json.num 1)])
    ∧ get_kj_data ⟨"<q>", [⟨"script", [], some "var x = 1;"⟩]⟩
      = Except.error (PyError.kijiji
          "\x27__data\x27 JSON object not found in html text." (some "<q>")) := by
  constructor
  · exact get_kj_data_spec.1 "<p>" [] [] (by intro t ht; simp at ht)
  · exact get_kj_data_spec.2 ⟨"<q>", [⟨"script", [], some "var x = 1;"⟩]⟩
      (by
        intro t ht h1 h2
        simp only [List.mem_singleton] at ht
        subst ht
        exact ⟨"var x = 1;", rfl, rfl⟩)
